import Mathlib

/-!
Verification of the Batch Job Orchestration subsystem of the ProteinFold
pipeline. The definitions below are a shallow embedding of the Python
sources:

* `alphafold_batch_handler.py` (class AlphaFoldBatchHandler, class
  BatchJobQueue, function create_job_from_data),
* `alphafold_job_monitor.py` (AlphaFoldJobMonitor.monitor_job_until_completion),
* `ncbi_bulk_fetcher.py` (NCBIBulkFetcher.retry_failed_downloads).

Python dictionaries with a fixed set of possibly-absent keys are embedded
as structures of `Option` fields (a `none` field is an absent key; direct
subscription of an absent key raises, `.get` with a default does not).
Wall-clock timestamps (datetime.now) are embedded as a counter `clock`
carried in the state and bumped at each call; timestamps are rendered with
`toString` where the code renders them into tabular output. Side effects
(Qt signal emissions and file writes) are embedded as an explicit event
trace. The external AlphaFold service (the Execution Driver reached
through the selenium session) is embedded as a per-job script of outcomes
supplied as input.
-/

set_option maxHeartbeats 1000000

namespace ProteinFold

/-- A job dictionary, as built by `create_job_from_data` and mutated by
`AlphaFoldBatchHandler`. Each field models one dictionary key; `none`
models an absent key. -/
structure Job where
  job_name : Option String := none
  protein_name : Option String := none
  protein_sequence : Option String := none
  dna_sequence : Option String := none
  gene_name : Option String := none
  roi_locus : Option String := none
  accession : Option String := none
  created_time : Option Nat := none
  job_id : Option String := none
  submission_time : Option Nat := none
  status : Option String := none
  download_time : Option Nat := none
  results_path : Option String := none
  error : Option String := none
  deriving Repr, DecidableEq

/-- Embedding of `create_job_from_data(protein_data, roi_data)`
(alphafold_batch_handler.py, lines 516-541). -/
def create_job_from_data (proteinName proteinSeq geneName roiLocus roiSeq
    accession : String) (clock : Nat) : Job :=
  { job_name := some ("Protein-DNA_" ++ proteinName ++ "_" ++ geneName ++ "_"
      ++ roiLocus ++ "_" ++ toString clock),
    protein_name := some proteinName,
    protein_sequence := some proteinSeq,
    dna_sequence := some roiSeq,
    gene_name := some geneName,
    roi_locus := some roiLocus,
    accession := some accession,
    created_time := some clock }

/-- Outcome of one `uploader.submit_job()` call of the Execution Driver. -/
inductive SubmitResult
  | accepted (jobId : String)
  | rejected
  | raised (msg : String)
  deriving Repr, DecidableEq

/-- Outcome of one `downloader.check_job_status()` call. -/
inductive PollStep
  | status (s : String)
  | raised (msg : String)
  deriving Repr, DecidableEq

/-- Outcome of one `downloader.download_results(job_dir)` call. -/
inductive DownloadResult
  | ok
  | failed
  | raised (msg : String)
  deriving Repr, DecidableEq

/-- Driver behavior for one dequeued job: the submission outcome, the
sequence of poll outcomes observed by the monitoring timer, the download
outcome, and the number of result archives the download left in the job
directory (a nonzero count only makes `_organize_job_results` attempt an
extraction that fails with a swallowed TypeError). -/
structure JobScript where
  submit : SubmitResult
  polls : List PollStep
  download : DownloadResult
  archives : Nat := 1
  deriving Repr, DecidableEq

/-- One row of the tabular export produced by `_create_csv_summary`
(alphafold_batch_handler.py, lines 395-424). -/
structure CsvRow where
  jobName : String
  proteinName : String
  geneName : String
  roiLocus : String
  jobId : String
  statusCell : String
  submissionTime : String
  downloadTime : String
  resultsPath : String
  errorCell : String
  deriving Repr, DecidableEq

/-- The `results_summary` dictionary of the handler. -/
structure ResultsSummary where
  start_time : Option Nat := none
  end_time : Option Nat := none
  total_jobs : Nat := 0
  successful : Nat := 0
  failed : Nat := 0
  completed_jobs : List Job := []
  failed_jobs : List Job := []
  output_directory : String
  deriving Repr, DecidableEq

/-- A file written by the handler, with the written content. -/
inductive FileWrite
  | jobInfo (j : Job)
  | summaryJson (s : ResultsSummary)
  | summaryCsv (rows : List CsvRow)
  | queueSnapshot (timestamp : Nat) (jobs_queue completed_jobs failed_jobs : List Job)
  deriving Repr, DecidableEq

/-- One observable effect of a run: a Qt signal emission, a poll issued to
the Execution Driver, or a file write. Progress-message strings are
abstracted to the bare `progress` event. -/
inductive Event
  | progress
  | polledStatus (jobId : String)
  | jobSubmitted (j : Job) (jobId : String) (counterAfter : Nat)
  | jobCompleted (j : Job)
  | jobFailed (j : Job) (err : String)
  | jobLimitReached
  | batchCompleted
  | wrote (f : FileWrite)
  deriving Repr, DecidableEq

/-- The mutable state of an `AlphaFoldBatchHandler` instance. -/
structure HandlerState where
  output_dir : String
  jobs_queue : List Job := []
  completed_jobs : List Job := []
  failed_jobs : List Job := []
  current_job : Option Job := none
  is_running : Bool := false
  should_stop : Bool := false
  max_daily_jobs : Nat := 30
  jobs_submitted_today : Nat := 0
  results_summary : ResultsSummary
  monitor_timer_on : Bool := false
  clock : Nat := 0
  deriving Repr, DecidableEq

/-- Embedding of `AlphaFoldBatchHandler.__init__` (lines 31-73). -/
def initHandler (outputDir : String) : HandlerState :=
  { output_dir := outputDir,
    results_summary := { output_directory := outputDir } }

/-- Embedding of one row of `_create_csv_summary`: the four direct
subscriptions raise a KeyError on an absent key (`Except.error`), the
remaining cells use `.get` with a default. -/
def csvRowOfJob (j : Job) : Except String CsvRow :=
  match j.job_name with
  | none => .error "KeyError: job_name"
  | some name =>
  match j.protein_name with
  | none => .error "KeyError: protein_name"
  | some prot =>
  match j.gene_name with
  | none => .error "KeyError: gene_name"
  | some gene =>
  match j.roi_locus with
  | none => .error "KeyError: roi_locus"
  | some locus =>
    .ok { jobName := name,
          proteinName := prot,
          geneName := gene,
          roiLocus := locus,
          jobId := j.job_id.getD "N/A",
          statusCell := j.status.getD "Failed",
          submissionTime := (j.submission_time.map toString).getD "N/A",
          downloadTime := (j.download_time.map toString).getD "N/A",
          resultsPath := j.results_path.getD "N/A",
          errorCell := j.error.getD "N/A" }

/-- Embedding of `_create_csv_summary` (lines 395-424): rows are built for
`completed_jobs + failed_jobs`; any exception while building them is
caught by the enclosing try and no CSV is produced (`none`). -/
def createCsvSummary (completed failed : List Job) : Option (List CsvRow) :=
  ((completed ++ failed).mapM csvRowOfJob).toOption

/-- Embedding of `_finalize_batch` (lines 362-393): stops the run and the
timer, fills in the summary, writes `batch_summary.json`, writes the CSV
when row construction succeeds and yields rows, and emits
`batch_completed`. -/
def finalizeBatch (st : HandlerState) : HandlerState × List Event :=
  let s : ResultsSummary :=
    { st.results_summary with
      end_time := some st.clock,
      successful := st.completed_jobs.length,
      failed := st.failed_jobs.length,
      completed_jobs := st.completed_jobs,
      failed_jobs := st.failed_jobs }
  let st1 : HandlerState :=
    { st with
      is_running := false, monitor_timer_on := false,
      results_summary := s, clock := st.clock + 1 }
  let csvEvents : List Event :=
    match createCsvSummary st.completed_jobs st.failed_jobs with
    | some rows => if rows.isEmpty then [] else [.wrote (.summaryCsv rows)]
    | none => [.progress]
  (st1, [Event.wrote (.summaryJson s)] ++ csvEvents ++ [Event.batchCompleted])

/-- Embedding of `_download_job_results` (lines 271-315), reached when a
poll returned "Completed". On a successful download with at least one
archive present, `_organize_job_results` (lines 317-346) enters its loop
and raises a TypeError at line 325 (`job_dir / "extracted"` on a plain
string), which its own except swallows with a warning — so no metadata
file is ever written and no archive extracted; with no archive the loop
body never runs and nothing is emitted. -/
def downloadJobResults (st : HandlerState) (dl : DownloadResult)
    (archives : Nat) : HandlerState × List Event :=
  match st.current_job with
  | none => (st, [.progress])
  | some j =>
    match j.job_id with
    | none =>
      let j1 := { j with error := some "Error downloading results: KeyError" }
      ({ st with current_job := some j1, failed_jobs := st.failed_jobs ++ [j1] },
       [.progress, .jobFailed j1 "Error downloading results: KeyError"])
    | some jid =>
      let jobDir := st.output_dir ++ "/" ++ jid
      match dl with
      | .ok =>
        let j1 := { j with results_path := some jobDir,
                           download_time := some st.clock }
        let metaEvents : List Event :=
          if archives = 0 then [] else [Event.progress]
        ({ st with
           current_job := some j1,
           completed_jobs := st.completed_jobs ++ [j1],
           clock := st.clock + 1 },
         [.progress] ++ metaEvents ++ [.jobCompleted j1, .progress])
      | .failed =>
        let j1 := { j with error := some "Failed to download job results" }
        ({ st with
           current_job := some j1,
           failed_jobs := st.failed_jobs ++ [j1] },
         [.progress, .jobFailed j1 "Failed to download job results"])
      | .raised msg =>
        let j1 := { j with error := some ("Error downloading results: " ++ msg) }
        ({ st with
           current_job := some j1,
           failed_jobs := st.failed_jobs ++ [j1] },
         [.progress, .jobFailed j1 ("Error downloading results: " ++ msg)])

/-- Embedding of one firing of the monitoring timer,
`check_current_job_status` (lines 237-269). Returns the new state and the
emitted events; the timer flag in the state records whether monitoring
continues. -/
def checkCurrentJobStatus (st : HandlerState) (poll : PollStep)
    (dl : DownloadResult) (archives : Nat) : HandlerState × List Event :=
  match st.current_job with
  | none => (st, [])
  | some j =>
    if st.should_stop then (st, [])
    else
      match j.job_id with
      | none => (st, [.progress])
      | some jid =>
        match poll with
        | .raised _ => (st, [.polledStatus jid, .progress])
        | .status s =>
          let j1 := { j with status := some s }
          let st1 := { st with current_job := some j1 }
          if s = "Completed" then
            let r := downloadJobResults { st1 with monitor_timer_on := false } dl archives
            (r.1, [.polledStatus jid, .progress] ++ r.2)
          else if s = "Failed" then
            let j2 := { j1 with error := some "AlphaFold job failed" }
            ({ st1 with
               monitor_timer_on := false, current_job := some j2,
               failed_jobs := st1.failed_jobs ++ [j2] },
             [.polledStatus jid, .progress, .jobFailed j2 "AlphaFold job failed"])
          else
            (st1, [.polledStatus jid, .progress])

/-- The monitoring phase of one job: the timer fires once per entry of the
poll script until a firing stops the timer. An exhausted script with the
timer still armed models a job whose monitoring never reaches a terminal
status (the returned flag is `false` and the run is not continued). -/
def monitorPhase (st : HandlerState) (polls : List PollStep)
    (dl : DownloadResult) (archives : Nat) :
    HandlerState × List Event × Bool :=
  match polls with
  | [] => (st, [], false)
  | p :: rest =>
    let r := checkCurrentJobStatus st p dl archives
    if r.1.monitor_timer_on then
      let r2 := monitorPhase r.1 rest dl archives
      (r2.1, r.2 ++ r2.2.1, r2.2.2)
    else
      (r.1, r.2, true)

/-- Embedding of `_submit_current_job` (lines 183-231) together with the
monitoring it starts on success. The returned flag is `false` only when
the monitoring phase ran out of script while still armed. -/
def submitCurrentJob (st : HandlerState) (sc : JobScript) :
    HandlerState × List Event × Bool :=
  match st.current_job with
  | none => (st, [], true)
  | some j =>
    if j.protein_sequence = none ∨ j.dna_sequence = none then
      let err := "Error submitting job: KeyError"
      let j1 := { j with error := some err }
      ({ st with current_job := some j1, failed_jobs := st.failed_jobs ++ [j1] },
       [.jobFailed j1 err], true)
    else
      match sc.submit with
      | .raised msg =>
        let err := "Error submitting job: " ++ msg
        let j1 := { j with error := some err }
        ({ st with current_job := some j1, failed_jobs := st.failed_jobs ++ [j1] },
         [.jobFailed j1 err], true)
      | .rejected =>
        let err := "Failed to submit job to AlphaFold"
        let j1 := { j with error := some err }
        ({ st with current_job := some j1, failed_jobs := st.failed_jobs ++ [j1] },
         [.jobFailed j1 err], true)
      | .accepted jid =>
        let j1 := { j with job_id := some jid,
                           submission_time := some st.clock,
                           status := some "Submitted" }
        let st1 := { st with
                     current_job := some j1,
                     clock := st.clock + 1,
                     jobs_submitted_today := st.jobs_submitted_today + 1,
                     monitor_timer_on := true }
        let evs : List Event :=
          [.jobSubmitted j1 jid st1.jobs_submitted_today, .progress,
           .wrote (.jobInfo j1)]
        let r := monitorPhase st1 sc.polls sc.download sc.archives
        (r.1, evs ++ r.2.1, r.2.2)

/-- The non-popping outcomes at the head of `_process_next_job`
(lines 155-173): the stop check, then the daily-limit check, then the
empty-queue check; `none` means the method goes on to pop a job. -/
def processNextHalt (st : HandlerState) : Option (HandlerState × List Event) :=
  if st.should_stop || !st.is_running then some (st, [])
  else if st.max_daily_jobs ≤ st.jobs_submitted_today then
    some ((finalizeBatch st).1, Event.jobLimitReached :: (finalizeBatch st).2)
  else if st.jobs_queue.isEmpty then
    some ((finalizeBatch st).1, Event.progress :: (finalizeBatch st).2)
  else none

/-- The processing loop driven by `_process_next_job` (lines 155-181) and
the delayed `QTimer.singleShot` rescheduling: each recursive step pops one
job and consumes one driver script. A queue head without a `job_name` key
raises an uncaught KeyError at line 178 and the run dies there; an
exhausted script list ends the modelled run. -/
def runLoop : HandlerState → List JobScript → HandlerState × List Event
  | st, [] =>
    (match processNextHalt st with
     | some r => r
     | none => (st, []))
  | st, sc :: scs =>
    (match processNextHalt st with
     | some r => r
     | none =>
       match st.jobs_queue with
       | [] => (st, [])
       | j :: rest =>
         if j.job_name = none then (st, [])
         else
           let st1 := { st with jobs_queue := rest, current_job := some j }
           let r := submitCurrentJob st1 sc
           if r.2.2 then
             let r2 := runLoop r.1 scs
             (r2.1, Event.progress :: (r.2.1 ++ r2.2))
           else
             (r.1, Event.progress :: r.2.1))

/-- The handler state set up by the head of `start_batch` (lines 82-103)
on a freshly constructed handler, before the connection is initialized:
truthy `max_jobs` overrides the limit and the tracking state is reset. -/
def startState (outputDir : String) (jobList : List Job)
    (maxJobs : Option Nat) : HandlerState :=
  let st0 := initHandler outputDir
  let maxD : Nat :=
    match maxJobs with
    | some m => if m ≠ 0 then m else st0.max_daily_jobs
    | none => st0.max_daily_jobs
  { st0 with
    max_daily_jobs := maxD,
    jobs_queue := jobList,
    completed_jobs := [],
    failed_jobs := [],
    jobs_submitted_today := 0,
    results_summary :=
      { st0.results_summary with
        start_time := some st0.clock,
        total_jobs := jobList.length,
        successful := 0,
        failed := 0 },
    clock := st0.clock + 1,
    is_running := true,
    should_stop := false }

/-- Embedding of `start_batch` (lines 75-111) on a freshly constructed
handler: the connection is initialized (`loginOk` is its outcome; a failed
login finalizes at once and the subsequent `_process_next_job` call
returns because `is_running` is already false), then the loop runs. -/
def startBatch (outputDir : String) (jobList : List Job)
    (maxJobs : Option Nat) (loginOk : Bool) (scripts : List JobScript) :
    HandlerState × List Event :=
  let st1 := startState outputDir jobList maxJobs
  if loginOk then
    ((runLoop st1 scripts).1, Event.progress :: (runLoop st1 scripts).2)
  else
    ((finalizeBatch st1).1, Event.progress :: (finalizeBatch st1).2)

/-- Embedding of `BatchJobQueue.save_queue` (lines 476-489): the queue
snapshot it would write for the given lists. Note that
`AlphaFoldBatchHandler` never invokes it. -/
def saveQueue (timestamp : Nat) (jobs_queue completed_jobs failed_jobs : List Job) :
    FileWrite :=
  .queueSnapshot timestamp jobs_queue completed_jobs failed_jobs

/-- Recognizer for queue-snapshot writes in an event trace. -/
def isQueueSnapshotWrite : Event → Bool
  | .wrote (.queueSnapshot _ _ _ _) => true
  | _ => false

/-- Recognizer for job-submission events in an event trace. -/
def isSubmitEvent : Event → Bool
  | .jobSubmitted _ _ _ => true
  | _ => false

/-- Number of jobs submitted along a trace. -/
def countSubmits (evs : List Event) : Nat :=
  evs.countP isSubmitEvent

/-- The download phase never touches the quota counter or the limit and
emits no submission event. -/
lemma downloadJobResults_quota (st : HandlerState) (dl : DownloadResult) (a : Nat) :
    (downloadJobResults st dl a).1.jobs_submitted_today = st.jobs_submitted_today ∧
    (downloadJobResults st dl a).1.max_daily_jobs = st.max_daily_jobs ∧
    countSubmits (downloadJobResults st dl a).2 = 0 := by
  unfold downloadJobResults
  split
  · simp [countSubmits, isSubmitEvent]
  · split
    · simp [countSubmits, isSubmitEvent]
    · split
      · refine ⟨rfl, rfl, ?_⟩
        dsimp only
        split <;> simp [countSubmits, isSubmitEvent]
      · simp [countSubmits, isSubmitEvent]
      · simp [countSubmits, isSubmitEvent]

/-- One firing of the monitoring timer never touches the quota counter or
the limit and emits no submission event. -/
lemma checkCurrentJobStatus_quota (st : HandlerState) (poll : PollStep)
    (dl : DownloadResult) (a : Nat) :
    (checkCurrentJobStatus st poll dl a).1.jobs_submitted_today = st.jobs_submitted_today ∧
    (checkCurrentJobStatus st poll dl a).1.max_daily_jobs = st.max_daily_jobs ∧
    countSubmits (checkCurrentJobStatus st poll dl a).2 = 0 := by
  unfold checkCurrentJobStatus
  split
  · simp [countSubmits]
  · split
    · simp [countSubmits]
    · split
      · simp [countSubmits, isSubmitEvent]
      · split
        · simp [countSubmits, isSubmitEvent]
        · dsimp only
          split
          · refine ⟨(downloadJobResults_quota _ dl a).1,
                    (downloadJobResults_quota _ dl a).2.1, ?_⟩
            simp only [countSubmits, List.cons_append, List.nil_append,
              List.countP_cons, isSubmitEvent]
            simpa [countSubmits] using (downloadJobResults_quota _ dl a).2.2
          · split
            · simp [countSubmits, isSubmitEvent]
            · simp [countSubmits, isSubmitEvent]

/-- Prepending a non-submission event leaves the submission count alone. -/
lemma countSubmits_cons_nonsubmit (e : Event) (l : List Event)
    (h : isSubmitEvent e = false) :
    countSubmits (e :: l) = countSubmits l := by
  simp [countSubmits, List.countP_cons, h]

/-- A progress event adds nothing to the submission count. -/
lemma countSubmits_cons_progress (l : List Event) :
    countSubmits (Event.progress :: l) = countSubmits l := by
  simp [countSubmits, List.countP_cons, isSubmitEvent]

/-- The submission count of a concatenation is the sum of the counts. -/
lemma countSubmits_append (l1 l2 : List Event) :
    countSubmits (l1 ++ l2) = countSubmits l1 + countSubmits l2 := by
  simp [countSubmits, List.countP_append]

/-- A trace with no counted submission contains no submission event. -/
lemma not_mem_submit_of_countSubmits_zero {evs : List Event}
    (h : countSubmits evs = 0) (j : Job) (jid : String) (c : Nat) :
    Event.jobSubmitted j jid c ∉ evs := by
  intro hmem
  have hp := (List.countP_eq_zero.mp h) _ hmem
  simp [isSubmitEvent] at hp

/-- The whole monitoring phase never touches the quota counter or the
limit and emits no submission event. -/
lemma monitorPhase_quota (polls : List PollStep) :
    ∀ (st : HandlerState) (dl : DownloadResult) (a : Nat),
    (monitorPhase st polls dl a).1.jobs_submitted_today = st.jobs_submitted_today ∧
    (monitorPhase st polls dl a).1.max_daily_jobs = st.max_daily_jobs ∧
    countSubmits (monitorPhase st polls dl a).2.1 = 0 := by
  induction polls with
  | nil => intro st dl a; simp [monitorPhase, countSubmits]
  | cons p rest ih =>
    intro st dl a
    unfold monitorPhase
    dsimp only
    split
    · obtain ⟨c1, m1, s1⟩ := checkCurrentJobStatus_quota st p dl a
      obtain ⟨c2, m2, s2⟩ := ih (checkCurrentJobStatus st p dl a).1 dl a
      refine ⟨c2.trans c1, m2.trans m1, ?_⟩
      simp only [countSubmits, List.countP_append] at s1 s2 ⊢
      omega
    · exact checkCurrentJobStatus_quota st p dl a

/-- One submission attempt: the limit is untouched, the counter grows by
exactly the number of emitted submission events (at most one), and any
submission event carries the incremented counter value. -/
lemma submitCurrentJob_quota (st : HandlerState) (sc : JobScript) :
    (submitCurrentJob st sc).1.max_daily_jobs = st.max_daily_jobs ∧
    (submitCurrentJob st sc).1.jobs_submitted_today =
      st.jobs_submitted_today + countSubmits (submitCurrentJob st sc).2.1 ∧
    countSubmits (submitCurrentJob st sc).2.1 ≤ 1 ∧
    (∀ j jid c, Event.jobSubmitted j jid c ∈ (submitCurrentJob st sc).2.1 →
      c = st.jobs_submitted_today + 1) := by
  cases hcur : st.current_job with
  | none => simp [submitCurrentJob, hcur, countSubmits]
  | some j =>
    by_cases hkeys : j.protein_sequence = none ∨ j.dna_sequence = none
    · simp [submitCurrentJob, hcur, hkeys, countSubmits, isSubmitEvent]
    · cases hsub : sc.submit with
      | raised msg =>
        simp [submitCurrentJob, hcur, hkeys, hsub, countSubmits, isSubmitEvent]
      | rejected =>
        simp [submitCurrentJob, hcur, hkeys, hsub, countSubmits, isSubmitEvent]
      | accepted jid =>
        obtain ⟨c1, m1, s1⟩ := monitorPhase_quota sc.polls
          { st with
            current_job := some { j with
              job_id := some jid,
              submission_time := some st.clock,
              status := some "Submitted" },
            clock := st.clock + 1,
            jobs_submitted_today := st.jobs_submitted_today + 1,
            monitor_timer_on := true } sc.download sc.archives
        simp only [submitCurrentJob, hcur, hsub, if_neg hkeys]
        refine ⟨m1, ?_, ?_, ?_⟩
        · dsimp only at c1
          simp only [countSubmits] at s1
          simp [countSubmits, List.countP_append, List.countP_cons,
            isSubmitEvent, s1, c1]
        · simp only [countSubmits] at s1
          simp [countSubmits, List.countP_append, List.countP_cons,
            isSubmitEvent, s1]
        · intro j2 jid2 c2 hmem
          simp only [List.cons_append, List.nil_append, List.mem_cons,
            List.mem_append] at hmem
          rcases hmem with h | h | h | h
          · exact (Event.jobSubmitted.inj h).2.2
          · exact absurd h (by simp)
          · exact absurd h (by simp)
          · exact absurd h (not_mem_submit_of_countSubmits_zero s1 _ _ _)

/-- Finalization never touches the quota counter or the limit and emits
no submission event. -/
lemma finalizeBatch_quota (st : HandlerState) :
    (finalizeBatch st).1.jobs_submitted_today = st.jobs_submitted_today ∧
    (finalizeBatch st).1.max_daily_jobs = st.max_daily_jobs ∧
    countSubmits (finalizeBatch st).2 = 0 := by
  refine ⟨rfl, rfl, ?_⟩
  unfold finalizeBatch
  dsimp only
  split
  · split <;> simp [countSubmits, isSubmitEvent]
  · simp [countSubmits, isSubmitEvent]

/-- The three halting branches at the head of `_process_next_job` never
touch the quota counter or the limit and emit no submission event. -/
lemma processNextHalt_quota (st : HandlerState) (r : HandlerState × List Event)
    (h : processNextHalt st = some r) :
    r.1.jobs_submitted_today = st.jobs_submitted_today ∧
    r.1.max_daily_jobs = st.max_daily_jobs ∧
    countSubmits r.2 = 0 := by
  unfold processNextHalt at h
  split_ifs at h with h1 h2 h3
  · cases h; simp [countSubmits]
  · cases h
    refine ⟨(finalizeBatch_quota st).1, (finalizeBatch_quota st).2.1, ?_⟩
    simpa [countSubmits, List.countP_cons, isSubmitEvent]
      using (finalizeBatch_quota st).2.2
  · cases h
    refine ⟨(finalizeBatch_quota st).1, (finalizeBatch_quota st).2.1, ?_⟩
    simpa [countSubmits, List.countP_cons, isSubmitEvent]
      using (finalizeBatch_quota st).2.2

/-- When none of the halting branches applies, the quota still has room. -/
lemma processNextHalt_none (st : HandlerState) (h : processNextHalt st = none) :
    st.jobs_submitted_today < st.max_daily_jobs := by
  unfold processNextHalt at h
  split_ifs at h with h1 h2 h3
  omega

/-- The run loop keeps the quota invariant: the limit is never changed,
the counter never exceeds the limit, every submission event carries a
counter value within the limit, and the counter equals its initial value
plus the number of submission events of the trace (one increment per
submitted job). -/
lemma runLoop_quota (scripts : List JobScript) :
    ∀ st : HandlerState, st.jobs_submitted_today ≤ st.max_daily_jobs →
    (runLoop st scripts).1.max_daily_jobs = st.max_daily_jobs ∧
    (runLoop st scripts).1.jobs_submitted_today ≤ st.max_daily_jobs ∧
    (runLoop st scripts).1.jobs_submitted_today
      = st.jobs_submitted_today + countSubmits (runLoop st scripts).2 ∧
    (∀ j jid c, Event.jobSubmitted j jid c ∈ (runLoop st scripts).2 →
      c ≤ st.max_daily_jobs) := by
  induction scripts with
  | nil =>
    intro st hle
    unfold runLoop
    cases hh : processNextHalt st with
    | none => dsimp only; simpa [countSubmits] using hle
    | some r =>
      obtain ⟨hc, hm, hs⟩ := processNextHalt_quota st r hh
      dsimp only
      refine ⟨hm, ?_, ?_, ?_⟩
      · omega
      · simp only [countSubmits] at hs ⊢; omega
      · intro j jid c hmem
        exact absurd hmem (not_mem_submit_of_countSubmits_zero hs _ _ _)
  | cons sc scs ih =>
    intro st hle
    unfold runLoop
    cases hh : processNextHalt st with
    | some r =>
      obtain ⟨hc, hm, hs⟩ := processNextHalt_quota st r hh
      dsimp only
      refine ⟨hm, ?_, ?_, ?_⟩
      · omega
      · simp only [countSubmits] at hs ⊢; omega
      · intro j jid c hmem
        exact absurd hmem (not_mem_submit_of_countSubmits_zero hs _ _ _)
    | none =>
      have hlt := processNextHalt_none st hh
      dsimp only
      cases hq : st.jobs_queue with
      | nil => simpa [hq, countSubmits] using hle
      | cons j rest =>
        by_cases hname : j.job_name = none
        · simp [hq, hname, countSubmits, hle]
        · obtain ⟨sm, scnt, sle, sev⟩ := submitCurrentJob_quota
            { st with jobs_queue := rest, current_job := some j } sc
          simp only [hq, if_neg hname]
          have sm : (submitCurrentJob
              { st with jobs_queue := rest, current_job := some j } sc).1.max_daily_jobs
              = st.max_daily_jobs := sm
          have scnt : (submitCurrentJob
              { st with jobs_queue := rest, current_job := some j } sc).1.jobs_submitted_today
              = st.jobs_submitted_today + countSubmits (submitCurrentJob
                { st with jobs_queue := rest, current_job := some j } sc).2.1 := scnt
          by_cases hok : (submitCurrentJob
              { st with jobs_queue := rest, current_job := some j } sc).2.2 = true
          · obtain ⟨im, ile, ieq, iev⟩ := ih
              (submitCurrentJob
                { st with jobs_queue := rest, current_job := some j } sc).1
              (by omega)
            rw [if_pos hok]
            refine ⟨by rw [im, sm], ?_, ?_, ?_⟩
            · rw [sm] at ile
              exact ile
            · rw [countSubmits_cons_progress, countSubmits_append, ieq, scnt]
              omega
            · intro j2 jid2 c2 hmem
              simp only [List.mem_cons, List.mem_append] at hmem
              rcases hmem with h | h | h
              · simp at h
              · have h3 : c2 = st.jobs_submitted_today + 1 := sev j2 jid2 c2 h
                omega
              · have := iev j2 jid2 c2 h
                rw [sm] at this
                exact this
          · rw [if_neg hok]
            refine ⟨sm, ?_, ?_, ?_⟩
            · dsimp only
              rw [scnt]
              omega
            · dsimp only
              rw [countSubmits_cons_progress, scnt]
            · intro j2 jid2 c2 hmem
              simp only [List.mem_cons] at hmem
              rcases hmem with h | h
              · simp at h
              · have h3 : c2 = st.jobs_submitted_today + 1 := sev j2 jid2 c2 h
                omega

/-- Claim C1: for every batch run of AlphaFoldBatchHandler, the counter
jobs_submitted_today never exceeds max_daily_jobs at any point during the
run: every submission event of the run trace carries a counter value at
most the limit, the final counter is at most the limit, and the counter
equals the number of submission events of the trace, so it is incremented
at most once per submitted job. -/
theorem c1_quota_invariant (outputDir : String) (jobs : List Job)
    (maxJobs : Option Nat) (loginOk : Bool) (scripts : List JobScript)
    (j : Job) (jid : String) (c : Nat)
    (hmem : Event.jobSubmitted j jid c
      ∈ (startBatch outputDir jobs maxJobs loginOk scripts).2) :
    c ≤ (startBatch outputDir jobs maxJobs loginOk scripts).1.max_daily_jobs ∧
    (startBatch outputDir jobs maxJobs loginOk scripts).1.jobs_submitted_today
      ≤ (startBatch outputDir jobs maxJobs loginOk scripts).1.max_daily_jobs ∧
    (startBatch outputDir jobs maxJobs loginOk scripts).1.jobs_submitted_today
      = countSubmits (startBatch outputDir jobs maxJobs loginOk scripts).2 := by
  have h0 : (startState outputDir jobs maxJobs).jobs_submitted_today
      ≤ (startState outputDir jobs maxJobs).max_daily_jobs := Nat.zero_le _
  obtain ⟨rm, rle, req, rev⟩ :=
    runLoop_quota scripts (startState outputDir jobs maxJobs) h0
  cases loginOk with
  | false =>
    exfalso
    unfold startBatch at hmem
    simp only [Bool.false_eq_true, if_false, List.mem_cons] at hmem
    rcases hmem with h | h
    · simp at h
    · exact absurd h (not_mem_submit_of_countSubmits_zero
        (finalizeBatch_quota (startState outputDir jobs maxJobs)).2.2 _ _ _)
  | true =>
    unfold startBatch at hmem ⊢
    simp only [if_true, List.mem_cons] at hmem ⊢
    have hm : Event.jobSubmitted j jid c
        ∈ (runLoop (startState outputDir jobs maxJobs) scripts).2 := by
      rcases hmem with h | h
      · simp at h
      · exact h
    refine ⟨?_, ?_, ?_⟩
    · rw [rm]; exact rev j jid c hm
    · rw [rm]; exact rle
    · rw [countSubmits_cons_progress, req]
      have hz : (startState outputDir jobs maxJobs).jobs_submitted_today = 0 := rfl
      omega

/-- Concrete one-job scenario used as a witness input. -/
def wJob : Job := create_job_from_data "P1" "MSEQ" "G1" "L77" "ACGT" "NM_1" 5

/-- Driver script for the witness scenario: accepted submission, one
Running poll, then Completed, successful download. -/
def wScript : JobScript :=
  { submit := .accepted "AF-9",
    polls := [.status "Running", .status "Completed"],
    download := .ok }

/-- The witness run: one job, default limit, successful login. -/
def wRun : HandlerState × List Event := startBatch "out" [wJob] none true [wScript]

/-- The witness job record as it stands right after its submission. -/
def wSubmitted : Job :=
  { wJob with
    job_id := some "AF-9",
    submission_time := some 1,
    status := some "Submitted" }

/-- Witness for C1: a concrete run containing a concrete submission
event, with the quota facts instantiated on it. -/
theorem c1_quota_invariant_witness :
    Event.jobSubmitted wSubmitted "AF-9" 1 ∈ wRun.2 ∧
    (1 ≤ wRun.1.max_daily_jobs ∧
     wRun.1.jobs_submitted_today ≤ wRun.1.max_daily_jobs ∧
     wRun.1.jobs_submitted_today = countSubmits wRun.2) :=
  ⟨by decide,
   c1_quota_invariant "out" [wJob] none true [wScript] wSubmitted "AF-9" 1
     (by decide)⟩

/-- Recognizer for summary-json writes in an event trace. -/
def isSummaryJsonWrite : Event → Bool
  | .wrote (.summaryJson _) => true
  | _ => false

/-- First job of Scenario A (spec section 8). -/
def scnJob1 : Job := create_job_from_data "P1" "MSEQ1" "G1" "L1" "ACGT1" "NM_1" 100

/-- Second job of Scenario A. -/
def scnJob2 : Job := create_job_from_data "P2" "MSEQ2" "G2" "L2" "ACGT2" "NM_2" 101

/-- Third job of Scenario A. -/
def scnJob3 : Job := create_job_from_data "P3" "MSEQ3" "G3" "L3" "ACGT3" "NM_3" 102

/-- Driver script for one Scenario A job: accepted submission, one Running
poll, then Completed, successful download. -/
def scnScript (jid : String) : JobScript :=
  { submit := .accepted jid,
    polls := [.status "Running", .status "Completed"],
    download := .ok }

/-- The Scenario A run: 3 jobs queued, max_daily_jobs = 2. -/
def scnRun : HandlerState × List Event :=
  startBatch "out" [scnJob1, scnJob2, scnJob3] (some 2) true
    [scnScript "AF-1", scnScript "AF-2", scnScript "AF-3"]

/-- Counterexample to claim C2 as stated: in the Scenario A run (3 jobs
queued, max_daily_jobs = 2) the controller does halt with job 3 pending
and the quota event fired, yet the trace contains no queue-snapshot write
at all — AlphaFoldBatchHandler never calls BatchJobQueue.save_queue, so no
persisted queue snapshot with 1 pending job exists. -/
theorem c2_counterexample :
    Event.jobLimitReached ∈ scnRun.2 ∧
    scnRun.1.jobs_queue.length = 1 ∧
    scnRun.2.countP isQueueSnapshotWrite = 0 := by decide

/-- Claim C2 amended: with 3 jobs queued and max_daily_jobs = 2, jobs 1
and 2 are submitted and processed to completion, job 3 remains pending in
the in-memory queue, a quota-reached event fires and the run halts
without a third submission; the summary manifest is persisted, but no
queue snapshot is written because the controller never invokes
BatchJobQueue.save_queue — invoking it on the final state would record
exactly one pending job. -/
theorem c2_amended_quota_halt :
    countSubmits scnRun.2 = 2 ∧
    scnRun.1.completed_jobs.length = 2 ∧
    scnRun.1.failed_jobs = [] ∧
    scnRun.1.jobs_queue = [scnJob3] ∧
    Event.jobLimitReached ∈ scnRun.2 ∧
    scnRun.2.countP isSummaryJsonWrite = 1 ∧
    scnRun.2.countP isQueueSnapshotWrite = 0 ∧
    saveQueue scnRun.1.clock scnRun.1.jobs_queue scnRun.1.completed_jobs
        scnRun.1.failed_jobs
      = FileWrite.queueSnapshot scnRun.1.clock [scnJob3]
          scnRun.1.completed_jobs [] := by decide

/-- True when the four columns that `_create_csv_summary` reads by direct
subscription are present on the job. -/
def hasMandatoryCsvFields (j : Job) : Bool :=
  j.job_name.isSome && j.protein_name.isSome && j.gene_name.isSome
    && j.roi_locus.isSome

/-- The row the export produces for a job whose four mandatory columns
are present: every optional cell falls back to the literal "N/A", except
the Status cell whose fallback is "Failed". Used to characterize
`csvRowOfJob` on such jobs. -/
def csvRowTotal (j : Job) : CsvRow :=
  { jobName := j.job_name.getD "",
    proteinName := j.protein_name.getD "",
    geneName := j.gene_name.getD "",
    roiLocus := j.roi_locus.getD "",
    jobId := j.job_id.getD "N/A",
    statusCell := j.status.getD "Failed",
    submissionTime := (j.submission_time.map toString).getD "N/A",
    downloadTime := (j.download_time.map toString).getD "N/A",
    resultsPath := j.results_path.getD "N/A",
    errorCell := j.error.getD "N/A" }

/-- On a job with the four mandatory columns, row construction succeeds
and yields exactly the total row. -/
lemma csvRowOfJob_of_mandatory (j : Job) (h : hasMandatoryCsvFields j = true) :
    csvRowOfJob j = .ok (csvRowTotal j) := by
  unfold hasMandatoryCsvFields at h
  simp only [Bool.and_eq_true, Option.isSome_iff_exists] at h
  obtain ⟨⟨⟨⟨n, hn⟩, ⟨p, hp⟩⟩, ⟨g, hg⟩⟩, ⟨l, hl⟩⟩ := h
  simp [csvRowOfJob, csvRowTotal, hn, hp, hg, hl]

/-- On a list of jobs that all carry the mandatory columns, the row
construction of the whole list succeeds and yields the total rows. -/
lemma mapM_csvRowOfJob_of_mandatory (l : List Job)
    (h : ∀ j ∈ l, hasMandatoryCsvFields j = true) :
    l.mapM csvRowOfJob = .ok (l.map csvRowTotal) := by
  induction l with
  | nil => rfl
  | cons j rest ih =>
    rw [List.mapM_cons, csvRowOfJob_of_mandatory j (h j (by simp)),
      ih (fun j2 hj2 => h j2 (by simp [hj2]))]
    rfl

/-- On lists of jobs that all carry the mandatory columns, the CSV export
succeeds with one total row per job, in order. -/
lemma createCsvSummary_of_mandatory (completed failed : List Job)
    (h : ∀ j ∈ completed ++ failed, hasMandatoryCsvFields j = true) :
    createCsvSummary completed failed
      = some ((completed ++ failed).map csvRowTotal) := by
  unfold createCsvSummary
  rw [mapM_csvRowOfJob_of_mandatory _ h]
  rfl

/-- Counterexample to claim C9 as stated: a failed job carrying only a
job name (it never received a protein name) makes the direct subscription
`job["protein_name"]` raise, and the export produces no CSV at all — not
a row with "N/A" cells. -/
theorem c9_counterexample :
    createCsvSummary [] [{ job_name := some "orphan" }] = none := by decide

/-- Claim C9 amended: the export is total only for jobs carrying the four
directly-subscribed columns (Job Name, Protein Name, Gene Name, ROI
Locus); for such jobs it emits one row per job in list order, rendering
each absent optional field as the literal "N/A" — except the Status cell,
whose fallback is the literal "Failed" — while a job missing one of the
four mandatory columns aborts the whole CSV export. -/
theorem c9_csv_total_rows (completed failed : List Job)
    (h : ∀ j ∈ completed ++ failed, hasMandatoryCsvFields j = true) :
    ∃ rows, createCsvSummary completed failed = some rows ∧
      rows.length = completed.length + failed.length ∧
      rows = (completed ++ failed).map csvRowTotal ∧
      (∀ j ∈ completed ++ failed,
        j.job_id = none → (csvRowTotal j).jobId = "N/A") ∧
      (∀ j ∈ completed ++ failed,
        j.submission_time = none → (csvRowTotal j).submissionTime = "N/A") ∧
      (∀ j ∈ completed ++ failed,
        j.download_time = none → (csvRowTotal j).downloadTime = "N/A") ∧
      (∀ j ∈ completed ++ failed,
        j.results_path = none → (csvRowTotal j).resultsPath = "N/A") ∧
      (∀ j ∈ completed ++ failed,
        j.error = none → (csvRowTotal j).errorCell = "N/A") ∧
      (∀ j ∈ completed ++ failed,
        j.status = none → (csvRowTotal j).statusCell = "Failed") := by
  refine ⟨(completed ++ failed).map csvRowTotal,
    createCsvSummary_of_mandatory completed failed h, ?_, rfl, ?_, ?_, ?_, ?_, ?_, ?_⟩
  · simp
  all_goals intro j hj hnone
  all_goals simp [csvRowTotal, hnone]

/-- Witness for C9 amended: two concrete jobs, one lacking every optional
field, export to two rows with "N/A" and "Failed" fallbacks. -/
theorem c9_csv_total_rows_witness :
    (∀ j ∈ [scnJob1] ++ [{ scnJob2 with status := none }],
      hasMandatoryCsvFields j = true) ∧
    ∃ rows, createCsvSummary [scnJob1] [{ scnJob2 with status := none }]
        = some rows ∧
      rows.length = [scnJob1].length + [{ scnJob2 with status := none }].length ∧
      rows = ([scnJob1] ++ [{ scnJob2 with status := none }]).map csvRowTotal ∧
      (∀ j ∈ [scnJob1] ++ [{ scnJob2 with status := none }],
        j.job_id = none → (csvRowTotal j).jobId = "N/A") ∧
      (∀ j ∈ [scnJob1] ++ [{ scnJob2 with status := none }],
        j.submission_time = none → (csvRowTotal j).submissionTime = "N/A") ∧
      (∀ j ∈ [scnJob1] ++ [{ scnJob2 with status := none }],
        j.download_time = none → (csvRowTotal j).downloadTime = "N/A") ∧
      (∀ j ∈ [scnJob1] ++ [{ scnJob2 with status := none }],
        j.results_path = none → (csvRowTotal j).resultsPath = "N/A") ∧
      (∀ j ∈ [scnJob1] ++ [{ scnJob2 with status := none }],
        j.error = none → (csvRowTotal j).errorCell = "N/A") ∧
      (∀ j ∈ [scnJob1] ++ [{ scnJob2 with status := none }],
        j.status = none → (csvRowTotal j).statusCell = "Failed") :=
  ⟨by decide,
   c9_csv_total_rows [scnJob1] [{ scnJob2 with status := none }] (by decide)⟩

/-- Modelled from the spec: sections 4.2 and 7 name terminal failure
causes (Failed, DownloadFailed) that the code keeps only implicitly on
the failed job record; this map reads a failed job back into its
spec-level terminal cause. Per section 7, DownloadFailed is the cause of
a failed job for which completion was detected — its status field still
reads "Completed" — before retrieval failed; a failed job whose polled
status reads "Failed" is a prediction failure, and any other failed job
(status absent or "Submitted") failed at submission, both spec cause
Failed. -/
def specFailureCause (j : Job) : String :=
  if j.status = some "Completed" then "DownloadFailed"
  else "Failed"

/-- Claim C4: when the download call fails after a Completed status was
detected, the job is recorded as failed with the download-specific error
(spec cause DownloadFailed, distinct from Failed), its status field still
reads "Completed" (not "Failed"), its job id, name, input parameters and
submission time are all retained, and a row keyed by its job id still
appears in the CSV summary built from the resulting lists. -/
theorem c4_download_failure_preserved (st : HandlerState) (j : Job)
    (jid : String) (dl : DownloadResult) (a : Nat)
    (hcur : st.current_job = some j) (hstop : st.should_stop = false)
    (hjid : j.job_id = some jid) (hdl : dl ≠ .ok)
    (hmand : hasMandatoryCsvFields j = true)
    (hall : ∀ j2 ∈ st.completed_jobs ++ st.failed_jobs,
      hasMandatoryCsvFields j2 = true) :
    ∃ j2,
      (checkCurrentJobStatus st (.status "Completed") dl a).1.failed_jobs
        = st.failed_jobs ++ [j2] ∧
      (checkCurrentJobStatus st (.status "Completed") dl a).1.completed_jobs
        = st.completed_jobs ∧
      j2.job_id = some jid ∧
      j2.job_name = j.job_name ∧
      j2.protein_name = j.protein_name ∧
      j2.protein_sequence = j.protein_sequence ∧
      j2.dna_sequence = j.dna_sequence ∧
      j2.gene_name = j.gene_name ∧
      j2.roi_locus = j.roi_locus ∧
      j2.submission_time = j.submission_time ∧
      j2.status = some "Completed" ∧
      j2.status ≠ some "Failed" ∧
      j2.error.isSome = true ∧
      specFailureCause j2 = "DownloadFailed" ∧
      specFailureCause j2 ≠ "Failed" ∧
      ∃ rows, createCsvSummary
          (checkCurrentJobStatus st (.status "Completed") dl a).1.completed_jobs
          (checkCurrentJobStatus st (.status "Completed") dl a).1.failed_jobs
        = some rows ∧
        ∃ row ∈ rows, row.jobId = jid ∧ row.statusCell = "Completed" := by
  have hred : (checkCurrentJobStatus st (.status "Completed") dl a).1
      = (downloadJobResults
          { st with
            current_job := some { j with status := some "Completed" },
            monitor_timer_on := false } dl a).1 := by
    simp [checkCurrentJobStatus, hcur, hstop, hjid]
  cases dl with
  | ok => exact absurd rfl hdl
  | failed =>
    refine ⟨{ j with status := some "Completed", error := some "Failed to download job results" }, ?_, ?_,
            hjid, rfl, rfl, rfl, rfl, rfl, rfl, rfl, rfl, by simp, rfl,
            by simp [specFailureCause], by simp [specFailureCause], ?_⟩
    · rw [hred]
      simp [downloadJobResults, hjid]
    · rw [hred]
      simp [downloadJobResults, hjid]
    · rw [hred]
      have hfj : (downloadJobResults
          { st with
            current_job := some { j with status := some "Completed" },
            monitor_timer_on := false } DownloadResult.failed a).1.failed_jobs
          = st.failed_jobs ++ [{ j with status := some "Completed", error := some "Failed to download job results" }] := by
        simp [downloadJobResults, hjid]
      have hcj : (downloadJobResults
          { st with
            current_job := some { j with status := some "Completed" },
            monitor_timer_on := false } DownloadResult.failed a).1.completed_jobs
          = st.completed_jobs := by
        simp [downloadJobResults, hjid]
      rw [hfj, hcj]
      have hall2 : ∀ j2 ∈ st.completed_jobs ++ (st.failed_jobs
          ++ [{ j with status := some "Completed", error := some "Failed to download job results" }]),
          hasMandatoryCsvFields j2 = true := by
        intro j2 hj2
        simp only [List.mem_append, List.mem_cons, List.not_mem_nil,
          or_false] at hj2
        rcases hj2 with h | h | h
        · exact hall j2 (by simp [h])
        · exact hall j2 (by simp [h])
        · subst h
          simpa [hasMandatoryCsvFields] using hmand
      refine ⟨_, createCsvSummary_of_mandatory _ _ hall2, ?_⟩
      refine ⟨csvRowTotal { j with status := some "Completed", error := some "Failed to download job results" }, ?_, ?_, ?_⟩
      · exact List.mem_map_of_mem _ (by simp)
      · simp [csvRowTotal, hjid]
      · simp [csvRowTotal]
  | raised msg =>
    refine ⟨{ j with status := some "Completed", error := some ("Error downloading results: " ++ msg) }, ?_, ?_,
            hjid, rfl, rfl, rfl, rfl, rfl, rfl, rfl, rfl, by simp, rfl,
            by simp [specFailureCause], by simp [specFailureCause], ?_⟩
    · rw [hred]
      simp [downloadJobResults, hjid]
    · rw [hred]
      simp [downloadJobResults, hjid]
    · rw [hred]
      have hfj : (downloadJobResults
          { st with
            current_job := some { j with status := some "Completed" },
            monitor_timer_on := false } (DownloadResult.raised msg) a).1.failed_jobs
          = st.failed_jobs ++ [{ j with status := some "Completed", error := some ("Error downloading results: " ++ msg) }] := by
        simp [downloadJobResults, hjid]
      have hcj : (downloadJobResults
          { st with
            current_job := some { j with status := some "Completed" },
            monitor_timer_on := false } (DownloadResult.raised msg) a).1.completed_jobs
          = st.completed_jobs := by
        simp [downloadJobResults, hjid]
      rw [hfj, hcj]
      have hall2 : ∀ j2 ∈ st.completed_jobs ++ (st.failed_jobs
          ++ [{ j with status := some "Completed", error := some ("Error downloading results: " ++ msg) }]),
          hasMandatoryCsvFields j2 = true := by
        intro j2 hj2
        simp only [List.mem_append, List.mem_cons, List.not_mem_nil,
          or_false] at hj2
        rcases hj2 with h | h | h
        · exact hall j2 (by simp [h])
        · exact hall j2 (by simp [h])
        · subst h
          simpa [hasMandatoryCsvFields] using hmand
      refine ⟨_, createCsvSummary_of_mandatory _ _ hall2, ?_⟩
      refine ⟨csvRowTotal { j with status := some "Completed", error := some ("Error downloading results: " ++ msg) }, ?_, ?_, ?_⟩
      · exact List.mem_map_of_mem _ (by simp)
      · simp [csvRowTotal, hjid]
      · simp [csvRowTotal]

/-- Witness for C4: a concrete state holding scnJob1 as the current job
with a job id, a failing download after Completed. -/
theorem c4_download_failure_preserved_witness :
    (({ output_dir := "out",
        current_job := some { scnJob1 with job_id := some "AF-1" },
        results_summary := { output_directory := "out" } }
        : HandlerState).current_job
      = some { scnJob1 with job_id := some "AF-1" }) ∧
    ∃ j2,
      (checkCurrentJobStatus
        { output_dir := "out",
          current_job := some { scnJob1 with job_id := some "AF-1" },
          results_summary := { output_directory := "out" } }
        (.status "Completed") DownloadResult.failed 1).1.failed_jobs
        = ({ output_dir := "out",
             current_job := some { scnJob1 with job_id := some "AF-1" },
             results_summary := { output_directory := "out" } }
             : HandlerState).failed_jobs ++ [j2] ∧
      (checkCurrentJobStatus
        { output_dir := "out",
          current_job := some { scnJob1 with job_id := some "AF-1" },
          results_summary := { output_directory := "out" } }
        (.status "Completed") DownloadResult.failed 1).1.completed_jobs
        = ({ output_dir := "out",
             current_job := some { scnJob1 with job_id := some "AF-1" },
             results_summary := { output_directory := "out" } }
             : HandlerState).completed_jobs ∧
      j2.job_id = some "AF-1" ∧
      j2.job_name = ({ scnJob1 with job_id := some "AF-1" } : Job).job_name ∧
      j2.protein_name
        = ({ scnJob1 with job_id := some "AF-1" } : Job).protein_name ∧
      j2.protein_sequence
        = ({ scnJob1 with job_id := some "AF-1" } : Job).protein_sequence ∧
      j2.dna_sequence
        = ({ scnJob1 with job_id := some "AF-1" } : Job).dna_sequence ∧
      j2.gene_name = ({ scnJob1 with job_id := some "AF-1" } : Job).gene_name ∧
      j2.roi_locus = ({ scnJob1 with job_id := some "AF-1" } : Job).roi_locus ∧
      j2.submission_time
        = ({ scnJob1 with job_id := some "AF-1" } : Job).submission_time ∧
      j2.status = some "Completed" ∧
      j2.status ≠ some "Failed" ∧
      j2.error.isSome = true ∧
      specFailureCause j2 = "DownloadFailed" ∧
      specFailureCause j2 ≠ "Failed" ∧
      ∃ rows, createCsvSummary
          (checkCurrentJobStatus
            { output_dir := "out",
              current_job := some { scnJob1 with job_id := some "AF-1" },
              results_summary := { output_directory := "out" } }
            (.status "Completed") DownloadResult.failed 1).1.completed_jobs
          (checkCurrentJobStatus
            { output_dir := "out",
              current_job := some { scnJob1 with job_id := some "AF-1" },
              results_summary := { output_directory := "out" } }
            (.status "Completed") DownloadResult.failed 1).1.failed_jobs
        = some rows ∧
        ∃ row ∈ rows, row.jobId = "AF-1" ∧ row.statusCell = "Completed" :=
  ⟨rfl,
   c4_download_failure_preserved
     { output_dir := "out",
       current_job := some { scnJob1 with job_id := some "AF-1" },
       results_summary := { output_directory := "out" } }
     { scnJob1 with job_id := some "AF-1" } "AF-1" DownloadResult.failed 1
     rfl rfl rfl (by decide) (by decide) (by decide)⟩

/-- Outcome of one `_check_job_status` call seen by the monitor loop of
`alphafold_job_monitor.py`: a returned status string, or an exception
raised while checking. -/
inductive MonitorPoll
  | status (s : String)
  | raised (msg : String)
  deriving Repr, DecidableEq

/-- Result of a monitoring run: the returned final status (`none` when
the supplied fuel ran out before the loop finished) and the number of
status checks performed. -/
structure MonitorRun where
  finalStatus : Option String
  pollCount : Nat
  deriving Repr, DecidableEq

/-- The while-loop of `monitor_job_until_completion`
(alphafold_job_monitor.py, lines 48-97). Time is carried in seconds: each
sleep advances `now` (check_interval_minutes * 60 for
running/queued/pending, 60 for an unrecognized status, 30 after an
exception) and the loop runs while `now < timeoutTime`. The environment
supplies the poll outcomes as `oracle`, indexed by check number, and
`stopRequested` models an external stop signal (such as
`AlphaFoldJobHandler.should_stop`) standing while the loop runs — the
source loop never reads any stop signal, so the function is constant in
this argument. `fuel` bounds the number of modelled iterations. -/
def monitorGo (oracle : Nat → MonitorPoll) (intervalMin timeoutTime : Nat)
    (stopRequested : Bool) : Nat → Nat → Nat → MonitorRun
  | _, checkCount, 0 => { finalStatus := none, pollCount := checkCount }
  | now, checkCount, fuel + 1 =>
    if timeoutTime ≤ now then
      { finalStatus := some "timeout", pollCount := checkCount }
    else
      match oracle checkCount with
      | .status s =>
        if s = "completed" then
          { finalStatus := some "completed", pollCount := checkCount + 1 }
        else if s = "failed" then
          { finalStatus := some "failed", pollCount := checkCount + 1 }
        else if s = "running" ∨ s = "queued" ∨ s = "pending" then
          monitorGo oracle intervalMin timeoutTime stopRequested
            (now + intervalMin * 60) (checkCount + 1) fuel
        else
          monitorGo oracle intervalMin timeoutTime stopRequested
            (now + 60) (checkCount + 1) fuel
      | .raised _ =>
        monitorGo oracle intervalMin timeoutTime stopRequested
          (now + 30) (checkCount + 1) fuel

/-- Embedding of `monitor_job_until_completion` (lines 26-103); the
source defaults are timeout_minutes = 120, check_interval_minutes = 5. -/
def monitor_job_until_completion (oracle : Nat → MonitorPoll)
    (timeout_minutes check_interval_minutes : Nat) (stopRequested : Bool)
    (fuel : Nat) : MonitorRun :=
  monitorGo oracle check_interval_minutes (timeout_minutes * 60)
    stopRequested 0 0 fuel

/-- A poll outcome carrying one of the two terminal status strings. -/
def isTerminalStatus (p : MonitorPoll) : Prop :=
  p = .status "completed" ∨ p = .status "failed"

/-- Every loop iteration that does not return sleeps at least 30 seconds,
so with a never-terminal oracle the loop reaches the timeout within the
stated fuel. -/
lemma monitorGo_timeout (oracle : Nat → MonitorPoll)
    (intervalMin timeoutTime : Nat) (stop : Bool)
    (hint : 1 ≤ intervalMin)
    (hnt : ∀ n, ¬ isTerminalStatus (oracle n)) :
    ∀ (fuel now cc : Nat), timeoutTime ≤ now + 30 * fuel →
    (monitorGo oracle intervalMin timeoutTime stop now cc
        (fuel + 1)).finalStatus = some "timeout" := by
  intro fuel
  induction fuel with
  | zero =>
    intro now cc h
    unfold monitorGo
    rw [if_pos (by omega)]
  | succ f ih =>
    intro now cc h
    unfold monitorGo
    by_cases ht : timeoutTime ≤ now
    · rw [if_pos ht]
    · rw [if_neg ht]
      have hn := hnt cc
      cases hp : oracle cc with
      | status s =>
        simp only [isTerminalStatus, hp, MonitorPoll.status.injEq, not_or] at hn
        dsimp only
        rw [if_neg hn.1, if_neg hn.2]
        by_cases hr : s = "running" ∨ s = "queued" ∨ s = "pending"
        · rw [if_pos hr]
          exact ih (now + intervalMin * 60) (cc + 1) (by omega)
        · rw [if_neg hr]
          exact ih (now + 60) (cc + 1) (by omega)
      | raised m =>
        exact ih (now + 30) (cc + 1) (by omega)

/-- For the loop of AlphaFoldJobMonitor: if pollStatus never returns a
terminal status within the timeout, the loop terminates — already any
fuel of at least 2 * timeout_minutes + 1 iterations finishes the modelled
loop — and the run ends with the single final outcome "timeout", which is
distinct from "failed". -/
lemma monitor_timeout_of_never_terminal (oracle : Nat → MonitorPoll)
    (timeoutM intervalM fuel : Nat) (stop : Bool)
    (hint : 1 ≤ intervalM)
    (hfuel : 2 * timeoutM + 1 ≤ fuel)
    (hnt : ∀ n, ¬ isTerminalStatus (oracle n)) :
    (monitor_job_until_completion oracle timeoutM intervalM stop
        fuel).finalStatus = some "timeout" ∧
    (monitor_job_until_completion oracle timeoutM intervalM stop
        fuel).finalStatus ≠ some "failed" := by
  obtain ⟨f, rfl⟩ : ∃ f, fuel = f + 1 := ⟨fuel - 1, by omega⟩
  have h2 : (monitor_job_until_completion oracle timeoutM intervalM stop
      (f + 1)).finalStatus = some "timeout" :=
    monitorGo_timeout oracle intervalM (timeoutM * 60) stop hint hnt
      f 0 0 (by omega)
  exact ⟨h2, by rw [h2]; simp⟩

/-- One firing of the batch-handler monitoring timer on a non-terminal
"Running" status: the status field is updated and the timer stays
armed — check_current_job_status contains no timeout check of any
kind. -/
lemma checkCurrentJobStatus_running (st : HandlerState) (j : Job)
    (jid : String) (dl : DownloadResult) (a : Nat)
    (hcur : st.current_job = some j) (hjid : j.job_id = some jid)
    (hstop : st.should_stop = false) :
    checkCurrentJobStatus st (.status "Running") dl a
      = ({ st with current_job := some { j with status := some "Running" } },
         [Event.polledStatus jid, Event.progress]) := by
  simp [checkCurrentJobStatus, hcur, hstop, hjid]

/-- The batch-handler monitoring loop never ends on its own while the
polled status stays "Running": after any number k of timer firings the
timer is still armed, the modelled monitoring phase reports that the
loop is still running (its script was exhausted with the timer on), and
the completed and failed lists are untouched — there is no timeout
branch and no TimedOut state in AlphaFoldBatchHandler. -/
lemma monitorPhase_running_never_ends (k : Nat) :
    ∀ (st : HandlerState) (j : Job) (jid : String) (dl : DownloadResult)
      (a : Nat),
    st.current_job = some j → j.job_id = some jid →
    st.should_stop = false → st.monitor_timer_on = true →
    (monitorPhase st (List.replicate k (PollStep.status "Running"))
        dl a).2.2 = false ∧
    (monitorPhase st (List.replicate k (PollStep.status "Running"))
        dl a).1.monitor_timer_on = true ∧
    (monitorPhase st (List.replicate k (PollStep.status "Running"))
        dl a).1.completed_jobs = st.completed_jobs ∧
    (monitorPhase st (List.replicate k (PollStep.status "Running"))
        dl a).1.failed_jobs = st.failed_jobs := by
  induction k with
  | zero =>
    intro st j jid dl a hcur hjid hstop htimer
    simp [monitorPhase, htimer]
  | succ n ih =>
    intro st j jid dl a hcur hjid hstop htimer
    have hstep := checkCurrentJobStatus_running st j jid dl a hcur hjid hstop
    rw [List.replicate_succ]
    unfold monitorPhase
    dsimp only
    rw [hstep]
    dsimp only
    rw [if_pos htimer]
    exact ih { st with current_job := some { j with status := some "Running" } }
      { j with status := some "Running" } jid dl a rfl hjid hstop htimer

/-- The job of the C3 counterexample. -/
def c3Job : Job := { scnJob1 with job_id := some "AF-1" }

/-- The batch-handler state monitoring c3Job. -/
def c3State : HandlerState :=
  { output_dir := "out", current_job := some c3Job,
    monitor_timer_on := true,
    results_summary := { output_directory := "out" } }

/-- Counterexample to claim C3 as stated: the claim quantifies over every
monitoring loop, but the QTimer loop of
AlphaFoldBatchHandler.check_current_job_status enforces no timeout. At
this concrete input — 200 firings of the 60-second status timer
returning "Running", i.e. 200 minutes of polling, well past the default
job_timeout_minutes of 120 — the timer is still armed, monitoring is
still running, the job sits in status "Running" in neither terminal
list, and no TimedOut transition has occurred or can occur. -/
theorem c3_counterexample :
    (monitorPhase c3State (List.replicate 200 (PollStep.status "Running"))
        DownloadResult.ok 1).2.2 = false ∧
    (monitorPhase c3State (List.replicate 200 (PollStep.status "Running"))
        DownloadResult.ok 1).1.monitor_timer_on = true ∧
    (monitorPhase c3State (List.replicate 200 (PollStep.status "Running"))
        DownloadResult.ok 1).1.completed_jobs = [] ∧
    (monitorPhase c3State (List.replicate 200 (PollStep.status "Running"))
        DownloadResult.ok 1).1.failed_jobs = [] ∧
    (monitorPhase c3State (List.replicate 200 (PollStep.status "Running"))
        DownloadResult.ok 1).1.current_job
      = some { c3Job with status := some "Running" } := by decide

/-- Claim C3 amended: only the monitoring loop of AlphaFoldJobMonitor is
timeout-bounded — there, if pollStatus never returns a terminal status
within the timeout, the loop terminates (any fuel of at least
2 * timeout_minutes + 1 iterations finishes it) with the single final
outcome "timeout", explicitly distinct from "failed"; the other
monitoring loop, the QTimer-driven check_current_job_status of
AlphaFoldBatchHandler, enforces no timeout: on never-terminal "Running"
statuses its timer stays armed after every firing, for any number of
firings, the completed and failed lists stay untouched, and no TimedOut
state exists there. -/
theorem c3_timeout_boundary (oracle : Nat → MonitorPoll)
    (timeoutM intervalM fuel : Nat) (stop : Bool)
    (hint : 1 ≤ intervalM)
    (hfuel : 2 * timeoutM + 1 ≤ fuel)
    (hnt : ∀ n, ¬ isTerminalStatus (oracle n))
    (st : HandlerState) (j : Job) (jid : String) (dl : DownloadResult)
    (a k : Nat)
    (hcur : st.current_job = some j) (hjid : j.job_id = some jid)
    (hstop : st.should_stop = false) (htimer : st.monitor_timer_on = true) :
    ((monitor_job_until_completion oracle timeoutM intervalM stop
        fuel).finalStatus = some "timeout" ∧
     (monitor_job_until_completion oracle timeoutM intervalM stop
        fuel).finalStatus ≠ some "failed") ∧
    ((monitorPhase st (List.replicate k (PollStep.status "Running"))
        dl a).2.2 = false ∧
     (monitorPhase st (List.replicate k (PollStep.status "Running"))
        dl a).1.monitor_timer_on = true ∧
     (monitorPhase st (List.replicate k (PollStep.status "Running"))
        dl a).1.completed_jobs = st.completed_jobs ∧
     (monitorPhase st (List.replicate k (PollStep.status "Running"))
        dl a).1.failed_jobs = st.failed_jobs) :=
  ⟨monitor_timeout_of_never_terminal oracle timeoutM intervalM fuel stop
     hint hfuel hnt,
   monitorPhase_running_never_ends k st j jid dl a hcur hjid hstop htimer⟩

/-- Witness for C3 amended: the monitor run polled "running" forever with
a 2 minute timeout times out, while the batch-handler loop on c3State is
still armed after 3 firings. -/
theorem c3_timeout_boundary_witness :
    (1 ≤ 1 ∧ 2 * 2 + 1 ≤ 5 ∧
      (∀ n, ¬ isTerminalStatus
        ((fun _ : Nat => MonitorPoll.status "running") n)) ∧
      c3State.current_job = some c3Job ∧ c3Job.job_id = some "AF-1" ∧
      c3State.should_stop = false ∧ c3State.monitor_timer_on = true) ∧
    (((monitor_job_until_completion
        (fun _ : Nat => MonitorPoll.status "running")
        2 1 false 5).finalStatus = some "timeout" ∧
      (monitor_job_until_completion
        (fun _ : Nat => MonitorPoll.status "running")
        2 1 false 5).finalStatus ≠ some "failed") ∧
     ((monitorPhase c3State (List.replicate 3 (PollStep.status "Running"))
         DownloadResult.ok 1).2.2 = false ∧
      (monitorPhase c3State (List.replicate 3 (PollStep.status "Running"))
         DownloadResult.ok 1).1.monitor_timer_on = true ∧
      (monitorPhase c3State (List.replicate 3 (PollStep.status "Running"))
         DownloadResult.ok 1).1.completed_jobs = c3State.completed_jobs ∧
      (monitorPhase c3State (List.replicate 3 (PollStep.status "Running"))
         DownloadResult.ok 1).1.failed_jobs = c3State.failed_jobs)) :=
  ⟨⟨by decide, by decide, by intro n; simp [isTerminalStatus],
    rfl, rfl, rfl, rfl⟩,
   c3_timeout_boundary (fun _ : Nat => MonitorPoll.status "running") 2 1 5
     false (by decide) (by decide) (by intro n; simp [isTerminalStatus])
     c3State c3Job "AF-1" DownloadResult.ok 1 3 rfl rfl rfl rfl⟩

/-- Claim C7: a poll iteration of the batch handler whose status check
raises leaves the state untouched — same current job and status, same
completed and failed lists, monitoring timer still armed — only progress
messages are emitted, no job-failed or job-completed signal fires, and
polling continues on the next timer tick. -/
theorem c7_monitoring_error_isolated (st : HandlerState) (j : Job)
    (msg : String) (dl : DownloadResult) (a : Nat)
    (hcur : st.current_job = some j) (hstop : st.should_stop = false) :
    (checkCurrentJobStatus st (.raised msg) dl a).1 = st ∧
    (∀ j2 e,
      Event.jobFailed j2 e ∉ (checkCurrentJobStatus st (.raised msg) dl a).2) ∧
    (∀ j2,
      Event.jobCompleted j2 ∉ (checkCurrentJobStatus st (.raised msg) dl a).2) := by
  unfold checkCurrentJobStatus
  rw [hcur]
  cases hjid : j.job_id with
  | none => simp [hstop, hjid]
  | some jid => simp [hstop, hjid]

/-- Witness for C7: a concrete one-job state, a raising poll. -/
theorem c7_monitoring_error_isolated_witness :
    (({ output_dir := "out",
        current_job := some { scnJob1 with job_id := some "AF-1" },
        monitor_timer_on := true,
        results_summary := { output_directory := "out" } }
        : HandlerState).current_job
      = some { scnJob1 with job_id := some "AF-1" }) ∧
    ((checkCurrentJobStatus
        { output_dir := "out",
          current_job := some { scnJob1 with job_id := some "AF-1" },
          monitor_timer_on := true,
          results_summary := { output_directory := "out" } }
        (.raised "driver error") DownloadResult.ok 1).1
      = { output_dir := "out",
          current_job := some { scnJob1 with job_id := some "AF-1" },
          monitor_timer_on := true,
          results_summary := { output_directory := "out" } } ∧
     (∀ j2 e, Event.jobFailed j2 e ∉ (checkCurrentJobStatus
        { output_dir := "out",
          current_job := some { scnJob1 with job_id := some "AF-1" },
          monitor_timer_on := true,
          results_summary := { output_directory := "out" } }
        (.raised "driver error") DownloadResult.ok 1).2) ∧
     (∀ j2, Event.jobCompleted j2 ∉ (checkCurrentJobStatus
        { output_dir := "out",
          current_job := some { scnJob1 with job_id := some "AF-1" },
          monitor_timer_on := true,
          results_summary := { output_directory := "out" } }
        (.raised "driver error") DownloadResult.ok 1).2)) :=
  ⟨rfl,
   c7_monitoring_error_isolated
     { output_dir := "out",
       current_job := some { scnJob1 with job_id := some "AF-1" },
       monitor_timer_on := true,
       results_summary := { output_directory := "out" } }
     { scnJob1 with job_id := some "AF-1" } "driver error"
     DownloadResult.ok 1 rfl rfl⟩

/-- The monitor loop is constant in the external stop signal: the source
never reads it. -/
lemma monitorGo_stop_irrelevant (oracle : Nat → MonitorPoll)
    (im tm : Nat) (s1 s2 : Bool) :
    ∀ (fuel now cc : Nat),
    monitorGo oracle im tm s1 now cc fuel
      = monitorGo oracle im tm s2 now cc fuel := by
  intro fuel
  induction fuel with
  | zero => intro now cc; rfl
  | succ f ih =>
    intro now cc
    unfold monitorGo
    by_cases ht : tm ≤ now
    · rw [if_pos ht, if_pos ht]
    · rw [if_neg ht, if_neg ht]
      cases oracle cc with
      | status s =>
        dsimp only
        by_cases h1 : s = "completed"
        · rw [if_pos h1, if_pos h1]
        · rw [if_neg h1, if_neg h1]
          by_cases h2 : s = "failed"
          · rw [if_pos h2, if_pos h2]
          · rw [if_neg h2, if_neg h2]
            by_cases h3 : s = "running" ∨ s = "queued" ∨ s = "pending"
            · rw [if_pos h3, if_pos h3]
              exact ih (now + im * 60) (cc + 1)
            · rw [if_neg h3, if_neg h3]
              exact ih (now + 60) (cc + 1)
      | raised m => exact ih (now + 30) (cc + 1)

/-- Counterexample to claim C8 as stated: the monitor loop of
AlphaFoldJobMonitor checks no stop signal at any point — with the
external stop signal set before monitoring even starts, a run with a 2
minute timeout and 1 minute interval still issues 2 pollStatus calls,
and the run with the signal set is identical to the run without it. -/
theorem c8_counterexample :
    (monitor_job_until_completion (fun _ : Nat => MonitorPoll.status "running")
        2 1 true 10).pollCount = 2 ∧
    monitor_job_until_completion (fun _ : Nat => MonitorPoll.status "running")
        2 1 true 10
      = monitor_job_until_completion (fun _ : Nat => MonitorPoll.status "running")
        2 1 false 10 := by decide

/-- Claim C8 amended: the timer-driven status check of
AlphaFoldBatchHandler does test the stop flag on entry — once set, the
check returns at once, emits nothing and issues no further poll — but the
monitoring loop of AlphaFoldJobMonitor consults no stop signal at all:
its result is identical whatever the external stop signal, so a stop
request does not suppress its pollStatus calls. -/
theorem c8_stop_responsiveness (st : HandlerState) (poll : PollStep)
    (dl : DownloadResult) (a : Nat) (hstop : st.should_stop = true)
    (oracle : Nat → MonitorPoll) (tm im fuel now cc : Nat) (s1 s2 : Bool) :
    checkCurrentJobStatus st poll dl a = (st, []) ∧
    monitorGo oracle im tm s1 now cc fuel
      = monitorGo oracle im tm s2 now cc fuel := by
  refine ⟨?_, monitorGo_stop_irrelevant oracle im tm s1 s2 fuel now cc⟩
  unfold checkCurrentJobStatus
  cases hcur : st.current_job with
  | none => rfl
  | some j =>
    dsimp only
    rw [if_pos hstop]

/-- Witness for C8 amended: a concrete stopped handler state and a
concrete monitor run. -/
theorem c8_stop_responsiveness_witness :
    (({ output_dir := "out",
        current_job := some { scnJob1 with job_id := some "AF-1" },
        should_stop := true,
        results_summary := { output_directory := "out" } }
        : HandlerState).should_stop = true) ∧
    (checkCurrentJobStatus
        { output_dir := "out",
          current_job := some { scnJob1 with job_id := some "AF-1" },
          should_stop := true,
          results_summary := { output_directory := "out" } }
        (.status "Running") DownloadResult.ok 1
      = ({ output_dir := "out",
           current_job := some { scnJob1 with job_id := some "AF-1" },
           should_stop := true,
           results_summary := { output_directory := "out" } }, []) ∧
     monitorGo (fun _ : Nat => MonitorPoll.status "running") 1 60 true 0 0 3
       = monitorGo (fun _ : Nat => MonitorPoll.status "running") 1 60 false 0 0 3) :=
  ⟨rfl,
   c8_stop_responsiveness
     { output_dir := "out",
       current_job := some { scnJob1 with job_id := some "AF-1" },
       should_stop := true,
       results_summary := { output_directory := "out" } }
     (.status "Running") DownloadResult.ok 1 rfl
     (fun _ : Nat => MonitorPoll.status "running") 60 1 3 0 0 true false⟩

/-- The gene_info dictionary of one bulk-fetch item
(ncbi_bulk_fetcher.py). -/
structure GeneInfo where
  gene_name : String
  organism : String
  deriving Repr, DecidableEq

/-- One NCBI search result as kept in the manifest. -/
structure SearchHit where
  id : String
  accession : String
  title : String
  deriving Repr, DecidableEq

/-- One failed item of the persisted failure manifest: the original gene
info, the last search result when one existed, the recorded error, the
retry counter, and the retry-specific note that only an exception during
a retry adds. -/
structure FailedItem where
  gene_info : GeneInfo
  search_result : Option SearchHit := none
  error : Option String := none
  retry_count : Nat := 0
  retry_error : Option String := none
  deriving Repr, DecidableEq

/-- One successful-results entry. Entries of the original run carry
seq_length_requested and no retry flag; entries appended by the retry
pass carry retry_attempt = true and no seq_length_requested key. -/
structure SuccessEntry where
  gene_info : GeneInfo
  search_result : SearchHit
  filepath : String
  download_time : Nat
  seq_length_requested : Option Nat := none
  retry_attempt : Bool := false
  deriving Repr, DecidableEq

/-- The persisted bulk-download summary manifest
(ncbi_bulk_fetcher.py, lines 246-255 and 345-353). -/
structure BulkSummary where
  timestamp : Nat
  total_genes : Nat
  successful_downloads : Nat
  failed_downloads : Nat
  seq_length_requested : Nat
  successful_results : List SuccessEntry
  failed_genes : List FailedItem
  retry_timestamp : Option Nat := none
  retry_successful : Option Nat := none
  still_failed : Option Nat := none
  deriving Repr, DecidableEq

/-- Outcome of one retry attempt for one failed item: the renewed search
returned nothing; or a best result was chosen and the download returned a
filepath or None; or an exception was raised somewhere in the attempt. -/
inductive RetryOutcome
  | searchEmpty
  | found (best : SearchHit) (filepath : Option String)
  | raised (msg : String)
  deriving Repr, DecidableEq

/-- Whether a retry outcome is a successful re-download. -/
def retrySucceeds : RetryOutcome → Bool
  | .found _ (some _) => true
  | _ => false

/-- The retry loop of `retry_failed_downloads` (lines 295-343): every
failed item is visited in order and its environment outcome consumed; the
result triple is (retry_results, still_failed, attempted gene names). On
success a fresh entry with retry_attempt is built; on an exception the
item is carried over with a `retry_error` note; otherwise the item is
carried over unchanged. Per-item download timestamps are abstracted to
one clock value. -/
def retryLoop (clock : Nat) :
    List FailedItem → List RetryOutcome →
    List SuccessEntry × List FailedItem × List String
  | [], _ => ([], [], [])
  | _ :: _, [] => ([], [], [])
  | item :: items, out :: outs =>
    let rest := retryLoop clock items outs
    match out with
    | .searchEmpty =>
      (rest.1, item :: rest.2.1, item.gene_info.gene_name :: rest.2.2)
    | .found best fp =>
      match fp with
      | some path =>
        ({ gene_info := item.gene_info, search_result := best,
           filepath := path, download_time := clock,
           retry_attempt := true } :: rest.1,
         rest.2.1, item.gene_info.gene_name :: rest.2.2)
      | none =>
        (rest.1, item :: rest.2.1, item.gene_info.gene_name :: rest.2.2)
    | .raised msg =>
      (rest.1, { item with retry_error := some msg } :: rest.2.1,
       item.gene_info.gene_name :: rest.2.2)

/-- Embedding of `retry_failed_downloads` (lines 267-364): the manifest
read and the in-place rewrite are modelled as the summary value in and
out. `shouldStop` models `self.should_stop` held constant over the pass
(when set, the loop body is never entered). The `max_retries` argument is
accepted by the source function and — exactly as there — never
consulted. -/
def retry_failed_downloads (s : BulkSummary) (outs : List RetryOutcome)
    (max_retries : Nat) (shouldStop : Bool) (clock : Nat) : BulkSummary :=
  if s.failed_genes.isEmpty then s
  else
    let r := if shouldStop then ([], [], [])
             else retryLoop clock s.failed_genes outs
    { s with
      retry_timestamp := some clock,
      retry_successful := some r.1.length,
      still_failed := some r.2.1.length,
      successful_results := s.successful_results ++ r.1,
      failed_genes := r.2.1,
      successful_downloads := s.successful_downloads + r.1.length,
      failed_downloads := r.2.1.length }

/-- Structural facts about one full retry pass over the failed items. -/
lemma retryLoop_spec (clock : Nat) :
    ∀ (items : List FailedItem) (outs : List RetryOutcome),
    outs.length = items.length →
    (retryLoop clock items outs).1.length = outs.countP retrySucceeds ∧
    (retryLoop clock items outs).2.1.length
      = items.length - outs.countP retrySucceeds ∧
    (retryLoop clock items outs).2.2
      = items.map (fun it => it.gene_info.gene_name) ∧
    (∀ e ∈ (retryLoop clock items outs).1, e.retry_attempt = true) ∧
    (∀ p ∈ items.zip outs, retrySucceeds p.2 = true →
      ∃ e ∈ (retryLoop clock items outs).1,
        e.gene_info = p.1.gene_info ∧ e.retry_attempt = true) ∧
    (∀ it ∈ (retryLoop clock items outs).2.1, ∃ it0 ∈ items,
      it.retry_count = it0.retry_count ∧ it.gene_info = it0.gene_info ∧
      it.error = it0.error ∧
      (it.retry_error = it0.retry_error ∨ ∃ m, it.retry_error = some m)) ∧
    (∀ p ∈ items.zip outs, ∀ m, p.2 = RetryOutcome.raised m →
      ∃ it ∈ (retryLoop clock items outs).2.1,
        it.gene_info = p.1.gene_info ∧ it.retry_count = p.1.retry_count ∧
        it.retry_error = some m) := by
  intro items
  induction items with
  | nil =>
    intro outs hlen
    have : outs = [] := List.eq_nil_of_length_eq_zero (by simpa using hlen)
    subst this
    simp [retryLoop]
  | cons item items ih =>
    intro outs hlen
    cases outs with
    | nil => simp at hlen
    | cons out outs =>
      have hlen2 : outs.length = items.length := by simpa using hlen
      obtain ⟨h1, h2, h3, h4, h5, h6, h7⟩ := ih outs hlen2
      have hM : outs.countP retrySucceeds ≤ items.length := by
        have := List.countP_le_length (p := retrySucceeds) (l := outs)
        omega
      cases out with
      | searchEmpty =>
        have hcnt : List.countP retrySucceeds (RetryOutcome.searchEmpty :: outs)
            = List.countP retrySucceeds outs := by
          simp [List.countP_cons, retrySucceeds]
        refine ⟨?_, ?_, ?_, ?_, ?_, ?_, ?_⟩
        · simp only [retryLoop, hcnt]
          exact h1
        · simp only [retryLoop, hcnt, List.length_cons]
          omega
        · simp [retryLoop, h3]
        · simpa [retryLoop] using h4
        · intro p hp hs
          simp only [List.zip_cons_cons, List.mem_cons] at hp
          rcases hp with h | h
          · subst h; simp [retrySucceeds] at hs
          · obtain ⟨e, he, hge⟩ := h5 p h hs
            exact ⟨e, by simpa [retryLoop] using he, hge⟩
        · intro it hit
          simp only [retryLoop, List.mem_cons] at hit
          rcases hit with h | h
          · exact ⟨item, by simp, by rw [h], by rw [h], by rw [h],
              Or.inl (by rw [h])⟩
          · obtain ⟨it0, hit0, hrest⟩ := h6 it h
            exact ⟨it0, by simp [hit0], hrest⟩
        · intro p hp m hm
          simp only [List.zip_cons_cons, List.mem_cons] at hp
          rcases hp with h | h
          · subst h; simp at hm
          · obtain ⟨it, hit, hrest⟩ := h7 p h m hm
            exact ⟨it, by simp [retryLoop, hit], hrest⟩
      | found best fp =>
        cases fp with
        | some path =>
          have hcnt : List.countP retrySucceeds
              (RetryOutcome.found best (some path) :: outs)
              = List.countP retrySucceeds outs + 1 := by
            simp [List.countP_cons, retrySucceeds]
          refine ⟨?_, ?_, ?_, ?_, ?_, ?_, ?_⟩
          · simp only [retryLoop, hcnt, List.length_cons]
            omega
          · simp only [retryLoop, hcnt, List.length_cons]
            omega
          · simp [retryLoop, h3]
          · intro e he
            simp only [retryLoop, List.mem_cons] at he
            rcases he with h | h
            · subst h; rfl
            · exact h4 e h
          · intro p hp hs
            simp only [List.zip_cons_cons, List.mem_cons] at hp
            rcases hp with h | h
            · subst h
              exact ⟨{ gene_info := item.gene_info, search_result := best,
                       filepath := path, download_time := clock,
                       retry_attempt := true }, by simp [retryLoop], rfl, rfl⟩
            · obtain ⟨e, he, hge⟩ := h5 p h hs
              exact ⟨e, by simp [retryLoop, he], hge⟩
          · intro it hit
            simp only [retryLoop] at hit
            obtain ⟨it0, hit0, hrest⟩ := h6 it hit
            exact ⟨it0, by simp [hit0], hrest⟩
          · intro p hp m hm
            simp only [List.zip_cons_cons, List.mem_cons] at hp
            rcases hp with h | h
            · subst h; simp at hm
            · obtain ⟨it, hit, hrest⟩ := h7 p h m hm
              exact ⟨it, by simpa [retryLoop] using hit, hrest⟩
        | none =>
          have hcnt : List.countP retrySucceeds
              (RetryOutcome.found best none :: outs)
              = List.countP retrySucceeds outs := by
            simp [List.countP_cons, retrySucceeds]
          refine ⟨?_, ?_, ?_, ?_, ?_, ?_, ?_⟩
          · simp only [retryLoop, hcnt]
            exact h1
          · simp only [retryLoop, hcnt, List.length_cons]
            omega
          · simp [retryLoop, h3]
          · simpa [retryLoop] using h4
          · intro p hp hs
            simp only [List.zip_cons_cons, List.mem_cons] at hp
            rcases hp with h | h
            · subst h; simp [retrySucceeds] at hs
            · obtain ⟨e, he, hge⟩ := h5 p h hs
              exact ⟨e, by simpa [retryLoop] using he, hge⟩
          · intro it hit
            simp only [retryLoop, List.mem_cons] at hit
            rcases hit with h | h
            · exact ⟨item, by simp, by rw [h], by rw [h], by rw [h],
                Or.inl (by rw [h])⟩
            · obtain ⟨it0, hit0, hrest⟩ := h6 it h
              exact ⟨it0, by simp [hit0], hrest⟩
          · intro p hp m hm
            simp only [List.zip_cons_cons, List.mem_cons] at hp
            rcases hp with h | h
            · subst h; simp at hm
            · obtain ⟨it, hit, hrest⟩ := h7 p h m hm
              exact ⟨it, by simp [retryLoop, hit], hrest⟩
      | raised msg =>
        have hcnt : List.countP retrySucceeds (RetryOutcome.raised msg :: outs)
            = List.countP retrySucceeds outs := by
          simp [List.countP_cons, retrySucceeds]
        refine ⟨?_, ?_, ?_, ?_, ?_, ?_, ?_⟩
        · simp only [retryLoop, hcnt]
          exact h1
        · simp only [retryLoop, hcnt, List.length_cons]
          omega
        · simp [retryLoop, h3]
        · simpa [retryLoop] using h4
        · intro p hp hs
          simp only [List.zip_cons_cons, List.mem_cons] at hp
          rcases hp with h | h
          · subst h; simp [retrySucceeds] at hs
          · obtain ⟨e, he, hge⟩ := h5 p h hs
            exact ⟨e, by simpa [retryLoop] using he, hge⟩
        · intro it hit
          simp only [retryLoop, List.mem_cons] at hit
          rcases hit with h | h
          · exact ⟨item, by simp, by rw [h], by rw [h], by rw [h],
              Or.inr ⟨msg, by rw [h]⟩⟩
          · obtain ⟨it0, hit0, hrest⟩ := h6 it h
            exact ⟨it0, by simp [hit0], hrest⟩
        · intro p hp m hm
          simp only [List.zip_cons_cons, List.mem_cons] at hp
          rcases hp with h | h
          · subst h
            simp only at hm
            injection hm with hm2
            refine ⟨{ item with retry_error := some msg },
              by simp [retryLoop], rfl, rfl, by rw [hm2]⟩
          · obtain ⟨it, hit, hrest⟩ := h7 p h m hm
            exact ⟨it, by simp [retryLoop, hit], hrest⟩

/-- Claim C5: a retry pass over a manifest with N failed items of which M
succeed rewrites the manifest with the successful count increased by M,
the failed count decreased by M (to N - M), the failed list shrunk to
N - M entries, each succeeding item appended to the successful-results
list as a retry entry, and every pre-existing successful entry unchanged,
in place, at the front of the list. -/
theorem c5_retry_manifest (s : BulkSummary) (outs : List RetryOutcome)
    (mr clock : Nat)
    (hlen : outs.length = s.failed_genes.length)
    (hcount : s.failed_downloads = s.failed_genes.length) :
    (retry_failed_downloads s outs mr false clock).successful_downloads
      = s.successful_downloads + outs.countP retrySucceeds ∧
    (retry_failed_downloads s outs mr false clock).failed_downloads
      = s.failed_downloads - outs.countP retrySucceeds ∧
    (retry_failed_downloads s outs mr false clock).failed_genes.length
      = s.failed_genes.length - outs.countP retrySucceeds ∧
    (retry_failed_downloads s outs mr false clock).successful_results.length
      = s.successful_results.length + outs.countP retrySucceeds ∧
    (retry_failed_downloads s outs mr false clock).successful_results.take
        s.successful_results.length = s.successful_results ∧
    (∀ e ∈ (retry_failed_downloads s outs mr false
        clock).successful_results.drop s.successful_results.length,
      e.retry_attempt = true) ∧
    (∀ p ∈ s.failed_genes.zip outs, retrySucceeds p.2 = true →
      ∃ e ∈ (retry_failed_downloads s outs mr false clock).successful_results,
        e.gene_info = p.1.gene_info ∧ e.retry_attempt = true) := by
  obtain ⟨t1, t2, t3, t4, t5, t6, t7⟩ :=
    retryLoop_spec clock s.failed_genes outs hlen
  by_cases hemp : s.failed_genes.isEmpty = true
  · have hnil : s.failed_genes = [] := by
      cases hfg : s.failed_genes with
      | nil => rfl
      | cons a l => rw [hfg] at hemp; simp at hemp
    have houts : outs = [] :=
      List.eq_nil_of_length_eq_zero (by rw [hlen, hnil]; rfl)
    subst houts
    unfold retry_failed_downloads
    rw [if_pos hemp]
    simp [hnil, List.take_length]
  · unfold retry_failed_downloads
    rw [if_neg hemp]
    simp only [Bool.false_eq_true, if_false]
    refine ⟨?_, ?_, ?_, ?_, ?_, ?_, ?_⟩
    · dsimp only; rw [t1]
    · dsimp only; rw [t2, hcount]
    · dsimp only; rw [t2]
    · dsimp only; rw [List.length_append, t1]
    · dsimp only; rw [List.take_left]
    · dsimp only
      rw [List.drop_left]
      exact t4
    · intro p hp hs
      obtain ⟨e, he, hrest⟩ := t5 p hp hs
      exact ⟨e, by simp [he], hrest⟩

/-- Summary used by the C5 witness: two failed items. -/
def c5Item1 : FailedItem :=
  { gene_info := { gene_name := "TP53", organism := "homo sapiens" },
    error := some "No search results found", retry_count := 0 }

/-- Second failed item of the C5 witness. -/
def c5Item2 : FailedItem :=
  { gene_info := { gene_name := "EGFR", organism := "homo sapiens" },
    error := some "Download failed after retries", retry_count := 3 }

/-- A pre-existing successful entry that the retry pass must not touch. -/
def c5OldEntry : SuccessEntry :=
  { gene_info := { gene_name := "MYC", organism := "homo sapiens" },
    search_result := { id := "11", accession := "NM_002467", title := "MYC" },
    filepath := "out/MYC.fasta", download_time := 3,
    seq_length_requested := some 0 }

/-- The C5 witness manifest: one prior success, two failed items. -/
def c5Summary : BulkSummary :=
  { timestamp := 0, total_genes := 3, successful_downloads := 1,
    failed_downloads := 2, seq_length_requested := 0,
    successful_results := [c5OldEntry], failed_genes := [c5Item1, c5Item2] }

/-- A hit found on retry for the C5 witness. -/
def c5Hit : SearchHit :=
  { id := "55", accession := "NM_000546", title := "TP53 mRNA" }

/-- Witness for C5: of the 2 failed items, the first succeeds on retry
and the second still fails; counts shift by 1 and the old entry stays. -/
theorem c5_retry_manifest_witness :
    ([RetryOutcome.found c5Hit (some "out/TP53.fasta"),
      RetryOutcome.found c5Hit none].length
        = c5Summary.failed_genes.length ∧
     c5Summary.failed_downloads = c5Summary.failed_genes.length) ∧
    ((retry_failed_downloads c5Summary
        [RetryOutcome.found c5Hit (some "out/TP53.fasta"),
         RetryOutcome.found c5Hit none] 3 false 9).successful_downloads
      = c5Summary.successful_downloads
        + [RetryOutcome.found c5Hit (some "out/TP53.fasta"),
           RetryOutcome.found c5Hit none].countP retrySucceeds ∧
     (retry_failed_downloads c5Summary
        [RetryOutcome.found c5Hit (some "out/TP53.fasta"),
         RetryOutcome.found c5Hit none] 3 false 9).failed_downloads
      = c5Summary.failed_downloads
        - [RetryOutcome.found c5Hit (some "out/TP53.fasta"),
           RetryOutcome.found c5Hit none].countP retrySucceeds ∧
     (retry_failed_downloads c5Summary
        [RetryOutcome.found c5Hit (some "out/TP53.fasta"),
         RetryOutcome.found c5Hit none] 3 false 9).failed_genes.length
      = c5Summary.failed_genes.length
        - [RetryOutcome.found c5Hit (some "out/TP53.fasta"),
           RetryOutcome.found c5Hit none].countP retrySucceeds ∧
     (retry_failed_downloads c5Summary
        [RetryOutcome.found c5Hit (some "out/TP53.fasta"),
         RetryOutcome.found c5Hit none] 3 false 9).successful_results.length
      = c5Summary.successful_results.length
        + [RetryOutcome.found c5Hit (some "out/TP53.fasta"),
           RetryOutcome.found c5Hit none].countP retrySucceeds ∧
     (retry_failed_downloads c5Summary
        [RetryOutcome.found c5Hit (some "out/TP53.fasta"),
         RetryOutcome.found c5Hit none] 3 false 9).successful_results.take
        c5Summary.successful_results.length = c5Summary.successful_results ∧
     (∀ e ∈ (retry_failed_downloads c5Summary
        [RetryOutcome.found c5Hit (some "out/TP53.fasta"),
         RetryOutcome.found c5Hit none] 3 false
        9).successful_results.drop c5Summary.successful_results.length,
       e.retry_attempt = true) ∧
     (∀ p ∈ c5Summary.failed_genes.zip
        [RetryOutcome.found c5Hit (some "out/TP53.fasta"),
         RetryOutcome.found c5Hit none], retrySucceeds p.2 = true →
       ∃ e ∈ (retry_failed_downloads c5Summary
          [RetryOutcome.found c5Hit (some "out/TP53.fasta"),
           RetryOutcome.found c5Hit none] 3 false 9).successful_results,
         e.gene_info = p.1.gene_info ∧ e.retry_attempt = true)) :=
  ⟨⟨by decide, by decide⟩,
   c5_retry_manifest c5Summary
     [RetryOutcome.found c5Hit (some "out/TP53.fasta"),
      RetryOutcome.found c5Hit none] 3 9 (by decide) (by decide)⟩

/-- The failed item of the C6 counterexample: its retry_count 5 already
exceeds the default max_retries of 3. -/
def c6Item : FailedItem :=
  { gene_info := { gene_name := "BRCA1", organism := "homo sapiens" },
    error := some "Download failed after retries", retry_count := 5 }

/-- The manifest of the C6 counterexample. -/
def c6Summary : BulkSummary :=
  { timestamp := 0, total_genes := 1, successful_downloads := 0,
    failed_downloads := 1, seq_length_requested := 0,
    successful_results := [], failed_genes := [c6Item] }

/-- A hit found during the C6 counterexample retry. -/
def c6Hit : SearchHit :=
  { id := "77", accession := "NM_007294", title := "BRCA1 mRNA" }

/-- Counterexample to claim C6 as stated: the item with retry_count 5,
already beyond max_retries = 3, is still re-attempted (it appears in the
attempted list), and after failing again (download returned None) it is
carried over byte-identically — its retry_count is not incremented and it
carries no retry-specific error note. -/
theorem c6_counterexample :
    (retryLoop 9 [c6Item] [RetryOutcome.found c6Hit none]).2.2 = ["BRCA1"] ∧
    c6Item.retry_count = 5 ∧
    3 < c6Item.retry_count ∧
    (retry_failed_downloads c6Summary [RetryOutcome.found c6Hit none]
        3 false 9).failed_genes = [c6Item] ∧
    c6Item.retry_error = none := by decide

/-- Claim C6 amended: the retry pass re-attempts every failed item of the
manifest regardless of its retry_count — the max_retries argument is
never consulted, so the rewritten manifest is identical for any two
values of it — items that fail again are carried over with retry_count
unchanged (in particular it never decreases across the rewrite), and only
an item whose retry raised an exception gains a retry-specific
retry_error note carrying the exception text. -/
theorem c6_retry_count_behavior (s : BulkSummary) (outs : List RetryOutcome)
    (mr1 mr2 clock : Nat) (hlen : outs.length = s.failed_genes.length) :
    retry_failed_downloads s outs mr1 false clock
      = retry_failed_downloads s outs mr2 false clock ∧
    (retryLoop clock s.failed_genes outs).2.2
      = s.failed_genes.map (fun it => it.gene_info.gene_name) ∧
    (∀ it ∈ (retry_failed_downloads s outs mr1 false clock).failed_genes,
      ∃ it0 ∈ s.failed_genes,
        it.retry_count = it0.retry_count ∧ it.gene_info = it0.gene_info ∧
        it.error = it0.error ∧
        (it.retry_error = it0.retry_error ∨ ∃ m, it.retry_error = some m)) ∧
    (∀ p ∈ s.failed_genes.zip outs, ∀ m, p.2 = RetryOutcome.raised m →
      ∃ it ∈ (retry_failed_downloads s outs mr1 false clock).failed_genes,
        it.gene_info = p.1.gene_info ∧ it.retry_count = p.1.retry_count ∧
        it.retry_error = some m) := by
  obtain ⟨t1, t2, t3, t4, t5, t6, t7⟩ :=
    retryLoop_spec clock s.failed_genes outs hlen
  refine ⟨rfl, t3, ?_, ?_⟩
  · intro it hit
    by_cases hemp : s.failed_genes.isEmpty = true
    · unfold retry_failed_downloads at hit
      rw [if_pos hemp] at hit
      exact ⟨it, hit, rfl, rfl, rfl, Or.inl rfl⟩
    · unfold retry_failed_downloads at hit
      rw [if_neg hemp] at hit
      simp only [Bool.false_eq_true, if_false] at hit
      exact t6 it hit
  · intro p hp m hm
    obtain ⟨it, hit, hrest⟩ := t7 p hp m hm
    by_cases hemp : s.failed_genes.isEmpty = true
    · exfalso
      have hnil : s.failed_genes = [] := by
        cases hfg : s.failed_genes with
        | nil => rfl
        | cons a l => rw [hfg] at hemp; simp at hemp
      rw [hnil] at hp
      simp at hp
    · refine ⟨it, ?_, hrest⟩
      unfold retry_failed_downloads
      rw [if_neg hemp]
      simpa [Bool.false_eq_true] using hit

/-- Witness for C6 amended: the single-item manifest whose retry raises. -/
theorem c6_retry_count_behavior_witness :
    ([RetryOutcome.raised "connection reset"].length
      = c6Summary.failed_genes.length) ∧
    (retry_failed_downloads c6Summary [RetryOutcome.raised "connection reset"]
        3 false 9
      = retry_failed_downloads c6Summary [RetryOutcome.raised "connection reset"]
        7 false 9 ∧
     (retryLoop 9 c6Summary.failed_genes
        [RetryOutcome.raised "connection reset"]).2.2
      = c6Summary.failed_genes.map (fun it => it.gene_info.gene_name) ∧
     (∀ it ∈ (retry_failed_downloads c6Summary
        [RetryOutcome.raised "connection reset"] 3 false 9).failed_genes,
       ∃ it0 ∈ c6Summary.failed_genes,
         it.retry_count = it0.retry_count ∧ it.gene_info = it0.gene_info ∧
         it.error = it0.error ∧
         (it.retry_error = it0.retry_error ∨ ∃ m, it.retry_error = some m)) ∧
     (∀ p ∈ c6Summary.failed_genes.zip
        [RetryOutcome.raised "connection reset"], ∀ m,
        p.2 = RetryOutcome.raised m →
       ∃ it ∈ (retry_failed_downloads c6Summary
          [RetryOutcome.raised "connection reset"] 3 false 9).failed_genes,
         it.gene_info = p.1.gene_info ∧ it.retry_count = p.1.retry_count ∧
         it.retry_error = some m)) :=
  ⟨by decide,
   c6_retry_count_behavior c6Summary [RetryOutcome.raised "connection reset"]
     3 7 9 (by decide)⟩

/-- A JSON value, as produced by `json.load`. Objects model Python dicts
(keys already deduplicated). -/
inductive Json
  | null
  | bool (b : Bool)
  | num (n : Int)
  | str (s : String)
  | arr (elems : List Json)
  | obj (fields : List (String × Json))

/-- The states the snapshot file `job_queue.json` can be in when
`load_queue` runs: absent; present but unreadable (open or read raises);
present but holding malformed JSON (`json.load` raises); or parsed. -/
inductive QueueFile
  | absent
  | ioError
  | badJson
  | parsed (j : Json)

/-- Python `dict.get(key, default)` on the fields of a JSON object. -/
def dictGet (fields : List (String × Json)) (key : String) (dflt : Json) : Json :=
  match fields.find? (fun kv => kv.1 = key) with
  | some kv => kv.2
  | none => dflt

/-- Whether a JSON value is an object (a Python dict). Calling `.get` on
anything else raises AttributeError. -/
def isObj : Json → Bool
  | .obj _ => true
  | _ => false

/-- The body of the try-block of `BatchJobQueue.load_queue`
(alphafold_batch_handler.py, lines 491-505): `.ok none` when the
existence check fails and the body falls through to the final return,
`.ok (some triple)` when the snapshot parses to a dict, `.error` when
anything raises. -/
def load_queue_body (f : QueueFile) : Except String (Option (Json × Json × Json)) :=
  match f with
  | .absent => .ok none
  | .ioError => .error "IOError"
  | .badJson => .error "JSONDecodeError"
  | .parsed j =>
    match j with
    | .obj fields =>
      .ok (some (dictGet fields "jobs_queue" (.arr []),
                 dictGet fields "completed_jobs" (.arr []),
                 dictGet fields "failed_jobs" (.arr [])))
    | _ => .error "AttributeError"

/-- Embedding of `BatchJobQueue.load_queue` (lines 491-505): the bare
except swallows every exception of the body, and both the fall-through
and the exception path return the empty triple. -/
def load_queue (f : QueueFile) : Json × Json × Json :=
  match load_queue_body f with
  | .ok (some t) => t
  | .ok none => (.arr [], .arr [], .arr [])
  | .error _ => (.arr [], .arr [], .arr [])

/-- Claim C10: queue restore is total and never raises — for every state
of the snapshot file, load_queue returns a triple: the empty triple when
the file is absent, unreadable, malformed, or not a dict, the empty list
for each individually missing key on a dict, and the caught-exception
path always collapses to the empty triple instead of propagating. -/
theorem c10_load_queue_total (fields : List (String × Json)) (j : Json) :
    load_queue .absent = (Json.arr [], Json.arr [], Json.arr []) ∧
    load_queue .ioError = (Json.arr [], Json.arr [], Json.arr []) ∧
    load_queue .badJson = (Json.arr [], Json.arr [], Json.arr []) ∧
    (isObj j = false →
      load_queue (.parsed j) = (Json.arr [], Json.arr [], Json.arr [])) ∧
    (fields.find? (fun kv => kv.1 = "jobs_queue") = none →
      (load_queue (.parsed (.obj fields))).1 = Json.arr []) ∧
    (fields.find? (fun kv => kv.1 = "completed_jobs") = none →
      (load_queue (.parsed (.obj fields))).2.1 = Json.arr []) ∧
    (fields.find? (fun kv => kv.1 = "failed_jobs") = none →
      (load_queue (.parsed (.obj fields))).2.2 = Json.arr []) ∧
    (∀ e, load_queue_body (.parsed j) = .error e →
      load_queue (.parsed j) = (Json.arr [], Json.arr [], Json.arr [])) := by
  refine ⟨rfl, rfl, rfl, ?_, ?_, ?_, ?_, ?_⟩
  · intro hobj
    cases j <;> simp_all [isObj, load_queue, load_queue_body]
  · intro hmiss
    simp [load_queue, load_queue_body, dictGet, hmiss]
  · intro hmiss
    simp [load_queue, load_queue_body, dictGet, hmiss]
  · intro hmiss
    simp [load_queue, load_queue_body, dictGet, hmiss]
  · intro e he
    unfold load_queue
    rw [he]

/-- Witness for C10: a parsed snapshot that is not a dict collapses to
the empty triple, and a dict holding only the completed_jobs key defaults
the two missing keys to the empty list. -/
theorem c10_load_queue_total_witness :
    load_queue (.parsed (Json.str "oops"))
      = (Json.arr [], Json.arr [], Json.arr []) ∧
    (load_queue (.parsed (.obj [("completed_jobs",
        Json.arr [Json.str "j1"])]))).1 = Json.arr [] ∧
    (load_queue (.parsed (.obj [("completed_jobs",
        Json.arr [Json.str "j1"])]))).2.2 = Json.arr [] :=
  ⟨(c10_load_queue_total [("completed_jobs", Json.arr [Json.str "j1"])]
      (Json.str "oops")).2.2.2.1 rfl,
   (c10_load_queue_total [("completed_jobs", Json.arr [Json.str "j1"])]
      (Json.str "oops")).2.2.2.2.1 rfl,
   (c10_load_queue_total [("completed_jobs", Json.arr [Json.str "j1"])]
      (Json.str "oops")).2.2.2.2.2.2.1 rfl⟩

end ProteinFold
